import Mathlib

/-!
Shallow embedding of the device-classification core of the DHCP repository:
`src/core/enhanced_classifier.py`, `src/core/dhcp_device_analyzer.py`,
`src/core/fingerbank_api.py` (confidence bucketing), and the batch loop of
the top-level `dhcp_device_analyzer.py`.

Python strings that may be `None` are modelled as `Option String`;
Python truthiness of such a value is `truthy` (`None` and `""` are falsy).
Case-insensitive regexes of the form `.*a.*b.*` (applied with `re.match`)
and `re.search` patterns are modelled by the small pattern language `Pat`
below, whose `run` checks containment of the segments in order over the
lower-cased character list of the subject string.
-/

/-- The string carried by an optional Python string (`None` becomes `""`). -/
def sOf : Option String → String
  | none => ""
  | some s => s

/-- Python truthiness of an optional string: `None` and `""` are falsy. -/
def truthy (o : Option String) : Bool := !(sOf o).toList.isEmpty

/-- Python `needle in hay` substring test. -/
def strContains (hay needle : String) : Bool :=
  hay.toList.tails.any (fun t => needle.toList.isPrefixOf t)

/-- Structural lower-casing (ASCII), used in place of `String.toLower`
(whose well-founded recursion does not reduce in the kernel). -/
def lowerChars (s : String) : List Char := s.toList.map Char.toLower

def pyLower (s : String) : String := String.mk (lowerChars s)

/-- Python `any(p in hay for p in ps)`. -/
def anyIn (ps : List String) (hay : String) : Bool :=
  ps.any (fun p => strContains hay p)

def charIsDigit (c : Char) : Bool := '0' ≤ c && c ≤ '9'

/-- Containment of the given segments in order, with arbitrary gaps:
the semantics of a case-folded `re` pattern `a.*b.*…` used with
`re.match(".*a.*b.*…", s)` or `re.search("a.*b", s)`. -/
def seqRun : List Char → List String → Bool
  | _, [] => true
  | hay, s :: rest =>
    hay.tails.any (fun t => s.toList.isPrefixOf t && seqRun (t.drop s.toList.length) rest)

/-- Segments in order followed (anywhere later) by a decimal digit:
semantics of `a.*[0-9]+`-shaped patterns. -/
def seqDigitRun : List Char → List String → Bool
  | hay, [] => hay.any charIsDigit
  | hay, s :: rest =>
    hay.tails.any (fun t => s.toList.isPrefixOf t && seqDigitRun (t.drop s.toList.length) rest)

/-- A token immediately followed by a decimal digit: semantics of `ps[0-9]`. -/
def tokDigitRun (hay : List Char) (s : String) : Bool :=
  hay.tails.any (fun t =>
    s.toList.isPrefixOf t &&
      (match t.drop s.toList.length with
       | c :: _ => charIsDigit c
       | [] => false))

/-- A token immediately followed by a digit and later by a second segment:
semantics of `ps[0-9].*console`. -/
def tokDigitThenRun (hay : List Char) (a b : String) : Bool :=
  hay.tails.any (fun t =>
    a.toList.isPrefixOf t &&
      (match t.drop a.toList.length with
       | c :: r => charIsDigit c && seqRun r [b]
       | [] => false))

/-- `a` then at most one character then `b`: semantics of `access.?point`. -/
def optCharRun (hay : List Char) (a b : String) : Bool :=
  hay.tails.any (fun t =>
    a.toList.isPrefixOf t &&
      (b.toList.isPrefixOf (t.drop a.toList.length) ||
       b.toList.isPrefixOf (t.drop (a.toList.length + 1))))

/-- Pattern language covering every regex shape appearing in the
classifier's rule tables (alternations `(a|b)` are expanded into
consecutive table entries with the same value, preserving first-match-wins
order). -/
inductive Pat where
  | sq : List String → Pat
  | sqD : List String → Pat
  | tokD : String → Pat
  | tokDThen : String → String → Pat
  | optc : String → String → Pat
  | pre : String → Pat
deriving Repr, DecidableEq

def Pat.run : Pat → List Char → Bool
  | .sq segs, hay => seqRun hay segs
  | .sqD segs, hay => seqDigitRun hay segs
  | .tokD s, hay => tokDigitRun hay s
  | .tokDThen a b, hay => tokDigitThenRun hay a b
  | .optc a b, hay => optCharRun hay a b
  | .pre s, hay => s.toList.isPrefixOf hay

/-- Ordered first-match-wins lookup over a rule table. -/
def patLookup : List (Pat × String) → List Char → Option String
  | [], _ => none
  | (p, v) :: rest, hay => if p.run hay then some v else patLookup rest hay

/-! ### Rule tables of `EnhancedFallbackClassifier.__init__`
(`src/src/core/enhanced_classifier.py`).  Dict insertion order is the
evaluation order. -/

/-- `self.hostname_patterns`: hostname regex → operating system. -/
def hostname_patterns : List (Pat × String) := [
  (.sq ["win"], "Windows"),
  (.sq ["desktop"], "Windows"),
  (.sq ["pc"], "Windows"),
  (.sq ["workstation"], "Windows"),
  (.sq ["macbook"], "macOS"),
  (.sq ["imac"], "macOS"),
  (.sq ["mac"], "macOS"),
  (.sq ["iphone"], "iOS"),
  (.sq ["ipad"], "iPadOS"),
  (.sq ["apple"], "iOS/macOS"),
  (.sq ["android"], "Android"),
  (.sq ["galaxy"], "Android"),
  (.sq ["pixel"], "Android"),
  (.sq ["oneplus"], "Android"),
  (.sq ["samsung"], "Android"),
  (.sq ["ring"], "Linux"),
  (.sq ["nest"], "Linux"),
  (.sq ["echo"], "Fire OS"),
  (.sq ["alexa"], "Fire OS"),
  (.sq ["firetv"], "Fire OS"),
  (.sq ["fire", "tv"], "Fire OS"),
  (.sq ["chromecast"], "Chrome OS"),
  (.sq ["esp_"], "Embedded OS"),
  (.sq ["esp32"], "Embedded OS"),
  (.sq ["esp8266"], "Embedded OS"),
  (.tokD "ps", "PlayStation OS"),
  (.sq ["playstation"], "PlayStation OS"),
  (.sq ["xbox"], "Xbox OS"),
  (.sq ["nintendo"], "Nintendo OS"),
  (.sq ["printer"], "Embedded OS"),
  (.sq ["hp", "print"], "Embedded OS"),
  (.sq ["canon", "print"], "Embedded OS"),
  (.sq ["epson", "print"], "Embedded OS"),
  (.sq ["ubuntu"], "Linux"),
  (.sq ["debian"], "Linux"),
  (.sq ["linux"], "Linux"),
  (.sq ["raspberrypi"], "Linux"),
  (.sq ["raspberry"], "Linux"),
  (.sq ["pfsense"], "FreeBSD"),
  (.sq ["freebsd"], "FreeBSD"),
  (.sq ["router"], "RouterOS/Linux"),
  (.sq ["gateway"], "Linux"),
  (.sq ["switch"], "Linux"),
  (.sq ["access", "point"], "Linux")
]

/-- `self.vendor_class_patterns`: `re.match` without a leading `.*`, hence
an anchored case-insensitive prefix test. -/
def vendor_class_patterns : List (Pat × String) := [
  (.pre "msft", "Windows"),
  (.pre "microsoft", "Windows"),
  (.pre "android", "Android"),
  (.pre "aaplbm", "macOS"),
  (.pre "aaplphone", "iOS"),
  (.pre "apple", "iOS/macOS"),
  (.pre "linux", "Linux"),
  (.pre "ubuntu", "Linux")
]

/-- `self.device_type_patterns`: hostname regex → device type, ordered by
specificity, first match wins. -/
def device_type_patterns : List (Pat × String) := [
  (.sq ["iphone"], "Phone"),
  (.sq ["ipad"], "Tablet"),
  (.sq ["galaxy"], "Phone"),
  (.sq ["pixel"], "Phone"),
  (.sq ["ring", "camera"], "Smart Camera"),
  (.sq ["ring", "doorbell"], "Smart Camera"),
  (.sq ["nest", "thermostat"], "Smart Thermostat"),
  (.sq ["nest", "cam"], "Smart Camera"),
  (.sq ["echo", "dot"], "Smart Speaker"),
  (.sq ["echo", "show"], "Smart Speaker"),
  (.sq ["echo", "studio"], "Smart Speaker"),
  (.sq ["alexa"], "Smart Speaker"),
  (.sq ["chromecast"], "Streaming Device"),
  (.sq ["firetv", "stick"], "Streaming Device"),
  (.sq ["fire", "tv"], "Streaming Device"),
  (.sq ["apple", "tv"], "Streaming Device"),
  (.sq ["roku"], "Streaming Device"),
  (.sq ["hue", "bridge"], "Smart Hub"),
  (.sq ["hue"], "Smart Lighting"),
  (.sq ["philips", "hue"], "Smart Lighting"),
  (.tokDThen "ps" "console", "Gaming Console"),
  (.tokD "ps", "Gaming Console"),
  (.sq ["playstation"], "Gaming Console"),
  (.sq ["xbox"], "Gaming Console"),
  (.sq ["nintendo"], "Gaming Console"),
  (.sq ["printer"], "Printer"),
  (.sq ["hp", "print"], "Printer"),
  (.sq ["canon", "print"], "Printer"),
  (.sq ["epson", "print"], "Printer"),
  (.sq ["esp_"], "IoT Device"),
  (.sq ["esp32"], "IoT Device"),
  (.sq ["esp8266"], "IoT Device"),
  (.sq ["raspberry"], "Single Board Computer"),
  (.sq ["raspberrypi"], "Single Board Computer"),
  (.sq ["android"], "Phone"),
  (.sq ["mobile"], "Phone"),
  (.sq ["phone"], "Phone"),
  (.sq ["tablet"], "Tablet"),
  (.sq ["macbook"], "Laptop"),
  (.sq ["laptop"], "Laptop"),
  (.sq ["notebook"], "Laptop"),
  (.sq ["desktop"], "Desktop"),
  (.sq ["pc"], "Desktop"),
  (.sq ["workstation"], "Desktop"),
  (.sq ["imac"], "Desktop"),
  (.sq ["server"], "Server"),
  (.sq ["router"], "Network Device"),
  (.sq ["gateway"], "Network Device"),
  (.sq ["switch"], "Network Device"),
  (.optc "access" "point", "Network Device"),
  (.sq ["camera"], "Camera"),
  (.sq ["cam"], "Camera"),
  (.sq ["tv"], "Smart TV"),
  (.sq ["television"], "Smart TV"),
  (.optc "smart" "tv", "Smart TV")
]

/-- `self.dhcp_fingerprint_patterns`: exact match after removing spaces. -/
def dhcp_fingerprint_patterns : List (String × String) := [
  ("1,15,3,6,44,46,47,31,33,121,249,43", "Windows 10/11"),
  ("1,15,3,6,44,46,47,31,33,249,43", "Windows 10"),
  ("1,3,6,15,31,33,43,44,46,47,119,121,249,252", "Windows 7/8"),
  ("1,121,3,6,15,119,252,95,44,46", "iOS/macOS"),
  ("1,3,6,15,119,95,252,44,46,47", "macOS"),
  ("1,3,6,15,26,28,51,58,59,43", "Android"),
  ("1,3,6,12,15,26,28,51,58,59", "Android"),
  ("1,28,2,3,15,6,119,12,44,47,26,121,42", "Linux")
]

/-- `self.vendor_rules`: vendor substring → (operating system, device type). -/
def vendor_rules : List (String × String × String) := [
  ("apple", "iOS/macOS", "Computer"),
  ("samsung", "Android", "Phone"),
  ("microsoft", "Windows", "Desktop"),
  ("google", "Android", "Phone"),
  ("amazon", "Fire OS", "Tablet"),
  ("hp", "Windows", "Printer"),
  ("dell", "Windows", "Laptop"),
  ("netgear", "RouterOS/Linux", "Network Device"),
  ("linksys", "RouterOS/Linux", "Network Device"),
  ("cisco", "IOS", "Network Device"),
  ("ubiquiti", "UniFi OS", "Network Device")
]

/-- `self.iot_device_patterns`: hostname `re.search` pattern →
(operating system, device type); alternations expanded in order. -/
def iot_device_patterns : List (Pat × String × String) := [
  (.sq ["google", "home"], "Google Assistant", "Smart Speaker"),
  (.sq ["nest", "mini"], "Google Assistant", "Smart Speaker"),
  (.sq ["nest", "hub"], "Google Assistant", "Smart Speaker"),
  (.sq ["echo", "dot"], "Fire OS", "Smart Speaker"),
  (.sq ["echo", "show"], "Fire OS", "Smart Speaker"),
  (.sq ["echo", "studio"], "Fire OS", "Smart Speaker"),
  (.sq ["alexa", "device"], "Fire OS", "Smart Speaker"),
  (.sq ["homepod"], "audioOS", "Smart Speaker"),
  (.sq ["apple", "speaker"], "audioOS", "Smart Speaker"),
  (.sq ["ring", "camera"], "Linux", "Smart Camera"),
  (.sq ["ring", "doorbell"], "Linux", "Smart Camera"),
  (.sq ["nest", "cam"], "Linux", "Smart Camera"),
  (.sq ["google", "cam"], "Linux", "Smart Camera"),
  (.sq ["arlo", "cam"], "Linux", "Smart Camera"),
  (.sq ["arlo", "camera"], "Linux", "Smart Camera"),
  (.sq ["wyze", "cam"], "Linux", "Smart Camera"),
  (.sq ["wyze", "camera"], "Linux", "Smart Camera"),
  (.sq ["blink", "cam"], "Linux", "Smart Camera"),
  (.sq ["blink", "camera"], "Linux", "Smart Camera"),
  (.sq ["nest", "thermostat"], "Linux", "Smart Thermostat"),
  (.sq ["google", "thermostat"], "Linux", "Smart Thermostat"),
  (.sq ["ecobee"], "Linux", "Smart Thermostat"),
  (.sq ["honeywell", "thermostat"], "Linux", "Smart Thermostat"),
  (.sq ["kasa", "plug"], "Linux", "Smart Plug"),
  (.sq ["smart", "plug"], "Linux", "Smart Plug"),
  (.sq ["tp", "link", "plug"], "Linux", "Smart Plug"),
  (.sq ["wemo", "plug"], "Linux", "Smart Plug"),
  (.sq ["belkin", "plug"], "Linux", "Smart Plug"),
  (.sq ["amazon", "plug"], "Linux", "Smart Plug"),
  (.sq ["alexa", "plug"], "Linux", "Smart Plug"),
  (.sq ["philips", "hue"], "Linux", "Smart Lighting"),
  (.sq ["hue", "bridge"], "Linux", "Smart Lighting"),
  (.sq ["hue", "bulb"], "Linux", "Smart Lighting"),
  (.sq ["lifx", "bulb"], "Linux", "Smart Lighting"),
  (.sq ["lifx", "strip"], "Linux", "Smart Lighting"),
  (.sqD ["esp"], "Embedded OS", "IoT Device"),
  (.tokD "esp_", "Embedded OS", "IoT Device"),
  (.sqD ["arduino"], "Embedded OS", "IoT Device"),
  (.sq ["nodemcu"], "Embedded OS", "IoT Device"),
  (.sq ["wemos"], "Embedded OS", "IoT Device"),
  (.sq ["lolin"], "Embedded OS", "IoT Device")
]

/-! ### Classifier helper methods of `EnhancedFallbackClassifier` -/

/-- `_classify_by_iot_signature`: hostname-only IoT signature match
(the vendor argument is accepted but deliberately unused in the source). -/
def classify_by_iot_signature (hostname : Option String) (_vendor : Option String) :
    Option String × Option String :=
  if truthy hostname then
    match iot_device_patterns.find? (fun e => e.1.run ((lowerChars (sOf hostname)))) with
    | some e => (some e.2.1, some e.2.2)
    | none => (none, none)
  else (none, none)

/-- `_classify_by_vendor_rules`: first vendor-substring rule wins. -/
def classify_by_vendor_rules (vendor : Option String) : Option String × Option String :=
  if truthy vendor then
    match vendor_rules.find? (fun r => strContains (pyLower (sOf vendor)) r.1) with
    | some r => (some r.2.1, some r.2.2)
    | none => (none, none)
  else (none, none)

def pure_networking_vendors : List String :=
  ["zyxel", "ubiquiti", "mikrotik", "juniper", "aruba", "meraki"]

/-- `multi_product_vendors`: (key, networking indicators, iot indicators, default). -/
def multi_product_vendors : List (String × List String × List String × String) := [
  ("tp-link", ["udhcp", "busybox", "dhcpcd", "openwrt"], ["kasa", "smart", "plug", "bulb"], "Network Device"),
  ("netgear", ["udhcp", "busybox", "dhcpcd"], ["arlo", "orbi"], "Network Device"),
  ("d-link", ["udhcp", "busybox", "dhcpcd"], ["dcs", "camera"], "Network Device"),
  ("belkin", ["udhcp", "busybox"], ["wemo", "smart"], "Network Device"),
  ("cisco", ["ios", "nx-os", "asa"], [], "Network Device")
]

/-- `component_manufacturers` context table:
(key, network indicators, mobile indicators, default). -/
def component_manufacturer_ctx : List (String × List String × List String × String) := [
  ("intel", ["dhcpcd", "pxe", "amt"], ["android-dhcp"], "Computer"),
  ("giga-byte", [], [], "Computer"),
  ("micro-star", [], [], "Computer"),
  ("asrock", [], [], "Computer"),
  ("nvidia", [], [], "Computer"),
  ("amd", [], [], "Computer"),
  ("realtek", [], [], "Computer"),
  ("broadcom", [], [], "Computer"),
  ("qualcomm", [], [], "Phone"),
  ("mediatek", [], [], "Phone")
]

structure DevMfgCtx where
  key : String
  mobile_indicators : List String := []
  computer_indicators : List String := []
  tv_indicators : List String := []
  iot_indicators : List String := []
  gaming_indicators : List String := []
  dflt : Option String := none
deriving Repr, DecidableEq

/-- `device_manufacturers` context table. -/
def device_manufacturers : List DevMfgCtx := [
  { key := "apple", mobile_indicators := ["iphone", "ios-dhcp"],
    computer_indicators := ["dhcpcd", "macos"], dflt := some "Computer" },
  { key := "samsung", mobile_indicators := ["android-dhcp", "galaxy"],
    tv_indicators := ["tizen", "smart-tv"], dflt := some "Phone" },
  { key := "google", mobile_indicators := ["android-dhcp", "pixel"],
    iot_indicators := ["nest", "chromecast"], dflt := some "Phone" },
  { key := "amazon", iot_indicators := ["alexa", "echo", "fire"], dflt := some "IoT Device" },
  { key := "microsoft", dflt := some "Computer" },
  { key := "dell", dflt := some "Computer" },
  { key := "hp", dflt := some "Computer" },
  { key := "lenovo", dflt := some "Computer" },
  { key := "sony", gaming_indicators := ["playstation", "ps4", "ps5"], dflt := some "Gaming Console" },
  { key := "nintendo", dflt := some "Gaming Console" },
  { key := "xiaomi", dflt := some "Phone" },
  { key := "huawei", dflt := some "Phone" },
  { key := "oneplus", dflt := some "Phone" }
]

/-- Indicator checks of the `device_manufacturers` loop, in source order. -/
def devMfgEval (c : DevMfgCtx) (vcl : String) : Option String :=
  if !c.mobile_indicators.isEmpty && anyIn c.mobile_indicators vcl then some "Phone"
  else if !c.computer_indicators.isEmpty && anyIn c.computer_indicators vcl then some "Computer"
  else if !c.tv_indicators.isEmpty && anyIn c.tv_indicators vcl then some "Smart TV"
  else if !c.iot_indicators.isEmpty && anyIn c.iot_indicators vcl then some "IoT Device"
  else if !c.gaming_indicators.isEmpty && anyIn c.gaming_indicators vcl then some "Gaming Console"
  else c.dflt

def virtual_vendors : List String := ["vmware", "virtualbox", "parallels", "xen", "kvm"]

def dev_board_vendors : List String :=
  ["raspberry pi", "arduino", "espressif", "adafruit", "sparkfun"]

def printer_vendors : List String :=
  ["hp inc", "canon", "epson", "brother", "lexmark", "xerox"]

/-- `_classify_by_hardware_manufacturer_context`. -/
def classify_by_hardware_manufacturer_context (vendor vendor_class : Option String) :
    Option String :=
  if !truthy vendor then none
  else
    let vl := (pyLower (sOf vendor))
    let vcl := if truthy vendor_class then (pyLower (sOf vendor_class)) else ""
    if anyIn pure_networking_vendors vl then some "Network Device"
    else
      match multi_product_vendors.find? (fun e => strContains vl e.1) with
      | some e =>
        if anyIn e.2.1 vcl then some "Network Device"
        else if anyIn e.2.2.1 vcl then some "IoT Device"
        else some e.2.2.2
      | none =>
        match component_manufacturer_ctx.find? (fun e => strContains vl e.1) with
        | some e =>
          if !e.2.1.isEmpty && anyIn e.2.1 vcl then some "Network Device"
          else if !e.2.2.1.isEmpty && anyIn e.2.2.1 vcl then some "Phone"
          else some e.2.2.2
        | none =>
          match device_manufacturers.find? (fun c => strContains vl c.key) with
          | some c => devMfgEval c vcl
          | none =>
            if anyIn virtual_vendors vl then some "Virtual Machine"
            else if anyIn dev_board_vendors vl then some "Single Board Computer"
            else if anyIn printer_vendors vl then some "Printer"
            else if strContains vl "private" || strContains vl "locally administered" then
              if strContains vcl "android" then some "Phone"
              else if strContains vcl "msft" || strContains vcl "microsoft" then some "Computer"
              else if strContains vcl "apple" then some "Computer"
              else none
            else none

/-- `_analyze_vendor_class_context`. -/
def analyze_vendor_class_context (vendor_class manufacturer : Option String) : Option String :=
  if !truthy vendor_class then none
  else
    let vcl := (pyLower (sOf vendor_class))
    let mfgl := if truthy manufacturer then (pyLower (sOf manufacturer)) else ""
    if anyIn ["udhcp", "busybox", "busybox-dhcp", "dropbear"] vcl then
      if anyIn ["tp-link", "zyxel", "netgear", "d-link", "linksys", "belkin", "tenda"] mfgl then
        some "Network Device"
      else some "IoT Device"
    else if anyIn ["dhcpcd", "dhclient", "networkmanager", "systemd"] vcl then
      if strContains mfgl "raspberry pi" || strContains mfgl "espressif" then
        some "Single Board Computer"
      else if anyIn ["ubiquiti", "mikrotik"] mfgl then some "Network Device"
      else some "Computer"
    else if anyIn ["android-dhcp", "android_dhcp"] vcl then
      if anyIn ["intel", "realtek", "broadcom", "nvidia", "amd"] mfgl then some "Computer"
      else if strContains vcl "android-dhcp-" then
        if anyIn ["samsung", "google", "huawei", "xiaomi", "oneplus", "lg electronics"] mfgl then
          some "Phone"
        else some "IoT Device"
      else if strContains vcl "android-tv" then some "Smart TV"
      else some "Phone"
    else if anyIn ["apple", "aaplbm", "aaplphone", "ios-dhcp"] vcl then
      if strContains vcl "phone" || strContains vcl "ios" then some "Phone"
      else if strContains vcl "tv" then some "Streaming Device"
      else some "Computer"
    else if anyIn ["msft", "microsoft"] vcl then some "Computer"
    else if anyIn ["playstation", "xbox", "nintendo"] vcl then some "Gaming Console"
    else if anyIn ["esp32", "esp8266", "arduino", "micropython", "tasmota", "nodemcu"] vcl then
      some "IoT Device"
    else if anyIn ["roku", "chromecast", "firetv", "appletv"] vcl then some "Streaming Device"
    else if anyIn ["hp-print", "canon-print", "epson-print", "brother-print"] vcl then
      some "Printer"
    else if anyIn ["openwrt", "dd-wrt", "tomato", "pfsense", "mikrotik"] vcl then
      some "Network Device"
    else if anyIn ["vmware", "virtualbox", "xen", "kvm", "hyper-v"] vcl then
      some "Virtual Machine"
    else if anyIn ["dhcp", "client", "unknown"] vcl && truthy manufacturer then
      classify_by_hardware_manufacturer_context manufacturer vendor_class
    else none

/-- `device_patterns` of `_resolve_hostname_vendor_conflicts`, in dict order. -/
def conflict_device_patterns : List (String × List String) := [
  ("Smart Camera", ["ring", "nest-cam", "arlo", "wyze", "blink", "eufy-cam", "camera", "doorbell"]),
  ("Smart TV", ["roku", "firetv", "fire-tv", "appletv", "chromecast", "smarttv", "smart-tv",
                "smart_tv", "tv-", "-tv", "samsung-tv", "lg-tv", "sony-tv"]),
  ("Gaming Console", ["ps4", "ps5", "xbox", "nintendo", "switch", "playstation", "console"]),
  ("Smart Speaker", ["echo", "alexa", "googlehome", "homepod", "nest-mini", "nest-hub"]),
  ("Phone", ["iphone", "galaxy", "pixel", "oneplus", "huawei", "android-phone"]),
  ("Streaming Device", ["roku", "firetv", "chromecast", "nvidia-shield", "apple-tv", "streaming"]),
  ("Printer", ["printer", "print", "hp-", "canon-", "epson-", "brother-"]),
  ("Smart Thermostat", ["thermostat", "nest-therm", "ecobee"]),
  ("IoT Device", ["esp", "arduino", "sensor", "smart-", "iot-"]),
  ("Network Device", ["router", "gateway", "switch", "access-point", "netgear", "linksys"])
]

/-- Loop body of `_resolve_hostname_vendor_conflicts`: a matching entry is
returned only when its device type differs from the current one, otherwise
the scan continues. -/
def conflictScan (hl current : String) : List (String × List String) → Option String
  | [] => none
  | (dt, pats) :: rest =>
    if anyIn pats hl && dt ≠ current then some dt else conflictScan hl current rest

/-- `_resolve_hostname_vendor_conflicts`. -/
def resolve_hostname_vendor_conflicts (hostname vendor : Option String) (current : String) :
    Option String :=
  if truthy hostname && truthy vendor then
    conflictScan (pyLower (sOf hostname)) current conflict_device_patterns
  else none

/-- `classify_by_hostname`: (operating system, device type) from hostname. -/
def classify_by_hostname (hostname : Option String) : Option String × Option String :=
  if truthy hostname then
    let h := (lowerChars (sOf hostname))
    (patLookup hostname_patterns h, patLookup device_type_patterns h)
  else (none, none)

/-- `classify_by_vendor_class`: operating system from vendor class. -/
def classify_by_vendor_class (vendor_class : Option String) : Option String :=
  if truthy vendor_class then
    patLookup vendor_class_patterns ((lowerChars (sOf vendor_class)))
  else none

/-- `classify_by_dhcp_fingerprint`: exact table match after space removal. -/
def classify_by_dhcp_fingerprint (dhcp_fingerprint : Option String) : Option String :=
  if truthy dhcp_fingerprint then
    let f := String.mk ((sOf dhcp_fingerprint).toList.filter (fun c => c ≠ ' '))
    (dhcp_fingerprint_patterns.find? (fun pr => pr.1 == f)).map Prod.snd
  else none

/-! ### `enhanced_classification`, split into its ten methods.
Each `mN` is the state transformation performed by method N of the source
body; `enhanced_classification` composes them in order. -/

structure EnhResult where
  operating_system : Option String
  device_type : Option String
  confidence : String
  method : String
  hostname_override : Bool
deriving Repr, DecidableEq

def initEnh : EnhResult :=
  { operating_system := none, device_type := none, confidence := "low",
    method := "fallback", hostname_override := false }

/-- `high_specificity_patterns` of method 1. -/
def high_specificity_patterns : List Pat := [
  .sq ["iphone"], .sq ["ipad"], .sq ["galaxy"], .sq ["pixel"],
  .sq ["ring", "camera"], .sq ["nest", "thermostat"], .sq ["chromecast"],
  .sq ["firetv"], .sq ["fire", "tv"], .tokD "ps", .sq ["xbox"],
  .sq ["printer"], .sq ["hp", "print"], .sq ["echo"], .sq ["alexa"],
  .sq ["smart", "tv"], .sq ["smart-tv"], .sq ["tv-"], .sq ["-tv"]
]

def hostnameVeryHigh (hostname : Option String) : Bool :=
  high_specificity_patterns.any (fun p => p.run ((lowerChars (sOf hostname))))

/-- Device-type assignment of method 1 (on a high-specificity match). -/
def m1dt (hdt : Option String) (vh : Bool) (s : EnhResult) : EnhResult :=
  match hdt with
  | some dt =>
    if vh then
      { s with device_type := some dt, confidence := "high",
               method := "hostname_specific", hostname_override := true }
    else s
  | none => s

/-- Operating-system assignment of method 1 (on a high-specificity match). -/
def m1os (hos : Option String) (vh : Bool) (s : EnhResult) : EnhResult :=
  match hos with
  | some os =>
    if vh then
      { s with operating_system := some os,
               confidence := if s.confidence ≠ "high" then "medium" else s.confidence,
               method := "hostname_specific" }
    else s
  | none => s

/-- Method 1: hostname analysis, applied only on a high-specificity match. -/
def m1 (hostname : Option String) (s : EnhResult) : EnhResult :=
  if truthy hostname then
    m1os (classify_by_hostname hostname).1 (hostnameVeryHigh hostname)
      (m1dt (classify_by_hostname hostname).2 (hostnameVeryHigh hostname) s)
  else s

/-- Method 2: DHCP fingerprint (skipped under a hostname override). -/
def m2 (dhcp_fingerprint : Option String) (s : EnhResult) : EnhResult :=
  if truthy dhcp_fingerprint && !s.hostname_override then
    match classify_by_dhcp_fingerprint dhcp_fingerprint with
    | some os =>
      if s.operating_system.isNone then
        { s with operating_system := some os, confidence := "high", method := "dhcp_fingerprint" }
      else s
    | none => s
  else s

/-- Method 3: vendor class (skipped under a hostname override). -/
def m3 (vendor_class : Option String) (s : EnhResult) : EnhResult :=
  if truthy vendor_class && !s.hostname_override then
    match classify_by_vendor_class vendor_class with
    | some os =>
      if s.operating_system.isNone then
        { s with operating_system := some os, confidence := "high", method := "vendor_class" }
      else s
    | none => s
  else s

/-- The shared shape of the operating-system assignments of methods 4-6:
fill only when unset, raise low confidence to medium, record the method. -/
def setOsStep (o : Option String) (meth : String) (s : EnhResult) : EnhResult :=
  if s.operating_system.isNone && o.isSome then
    { s with operating_system := o,
             confidence := if s.confidence = "low" then "medium" else s.confidence,
             method := meth }
  else s

/-- The shared shape of the device-type assignments of methods 4-6:
fill only when unset and not locked by a hostname override. -/
def setDtStep (d : Option String) (s : EnhResult) : EnhResult :=
  if s.device_type.isNone && d.isSome && !s.hostname_override then
    { s with device_type := d }
  else s

/-- Method 4: IoT signatures. -/
def m4 (hostname vendor : Option String) (s : EnhResult) : EnhResult :=
  if s.operating_system.isNone || s.device_type.isNone then
    setDtStep (classify_by_iot_signature hostname vendor).2
      (setOsStep (classify_by_iot_signature hostname vendor).1 "iot_signature" s)
  else s

/-- Method 5: vendor-specific rules. -/
def m5 (vendor : Option String) (s : EnhResult) : EnhResult :=
  if s.operating_system.isNone || s.device_type.isNone then
    setDtStep (classify_by_vendor_rules vendor).2
      (setOsStep (classify_by_vendor_rules vendor).1 "vendor_rules" s)
  else s

/-- Method 6: hostname analysis for still-missing fields. -/
def m6 (hostname : Option String) (s : EnhResult) : EnhResult :=
  if truthy hostname && (s.operating_system.isNone || s.device_type.isNone) then
    setDtStep (classify_by_hostname hostname).2
      (setOsStep (classify_by_hostname hostname).1 "hostname" s)
  else s

/-- Method 7: vendor-based inference. -/
def m7 (vendor : Option String) (s : EnhResult) : EnhResult :=
  if s.operating_system.isNone && truthy vendor then
    let vl := (pyLower (sOf vendor))
    if strContains vl "apple" then
      { s with operating_system := some "iOS/macOS", method := "vendor_inference" }
    else if strContains vl "microsoft" then
      { s with operating_system := some "Windows", method := "vendor_inference" }
    else if strContains vl "samsung" && s.device_type.isNone then
      { s with operating_system := some "Android",
               device_type := if !s.hostname_override then some "Phone" else s.device_type,
               confidence := if s.confidence = "low" then "medium" else s.confidence,
               method := "vendor_inference" }
    else s
  else s

/-- Method 8: vendor class context analysis. -/
def m8 (vendor_class vendor : Option String) (s : EnhResult) : EnhResult :=
  if s.device_type.isNone && truthy vendor_class then
    match analyze_vendor_class_context vendor_class vendor with
    | some dt =>
      { s with device_type := some dt,
               confidence := if s.confidence = "low" then "medium" else s.confidence,
               method := "vendor_class_context" }
    | none => s
  else s

/-- Method 9: hardware manufacturer context analysis. -/
def m9 (vendor vendor_class : Option String) (s : EnhResult) : EnhResult :=
  if s.device_type.isNone && truthy vendor then
    match classify_by_hardware_manufacturer_context vendor vendor_class with
    | some dt =>
      { s with device_type := some dt,
               confidence := if s.confidence = "low" then "medium" else s.confidence,
               method := "hardware_manufacturer_context" }
    | none => s
  else s

/-- Method 10: hostname-vendor conflict resolution (explicit override path). -/
def m10 (hostname vendor : Option String) (s : EnhResult) : EnhResult :=
  if truthy hostname && truthy vendor && s.device_type.isSome then
    match resolve_hostname_vendor_conflicts hostname vendor (sOf s.device_type) with
    | some dt =>
      if some dt ≠ s.device_type then
        { s with device_type := some dt, confidence := "high",
                 method := "hostname_conflict_resolution", hostname_override := true }
      else s
    | none => s
  else s

/-- `enhanced_classification`: the full ten-method chain. -/
def enhanced_classification (hostname vendor_class dhcp_fingerprint vendor : Option String) :
    EnhResult :=
  m10 hostname vendor (m9 vendor vendor_class (m8 vendor_class vendor (m7 vendor
    (m6 hostname (m5 vendor (m4 hostname vendor (m3 vendor_class
      (m2 dhcp_fingerprint (m1 hostname initEnh)))))))))

/-! ### Data model of the analyzer (`src/src/core/dhcp_device_analyzer.py`,
`src/src/core/dhcp_log_parser.py`, `src/src/core/fingerbank_api.py`).
Only the fields the classification core reads are modelled. -/

structure DHCPLogEntry where
  mac_address : String
  ip_address : Option String := none
  hostname : Option String := none
  vendor_class : Option String := none
  dhcp_fingerprint : Option String := none
  message_type : Option String := none
deriving Repr, DecidableEq

/-- `DeviceClassification` of `fingerbank_api.py` (the oracle candidate);
`device_hierarchy = []` plays the role of Python's `None`/empty list. -/
structure DeviceClassification where
  device_name : Option String := none
  device_type : Option String := none
  operating_system : Option String := none
  device_hierarchy : List String := []
  confidence_score : Nat := 0
  error_message : Option String := none
deriving Repr, DecidableEq

/-- Confidence-score bucketing of `FingerbankAPIClient._parse_api_response`. -/
def confidenceLevelOf (score : Nat) : String :=
  if score < 30 then "very_low"
  else if score ≤ 50 then "moderate"
  else if score ≤ 75 then "high"
  else "very_high"

structure DeviceClassificationResult where
  mac_address : String
  ip_address : Option String := none
  hostname : Option String := none
  vendor : Option String := none
  vendor_confidence : String := "unknown"
  device_type : Option String := none
  device_name : Option String := none
  operating_system : Option String := none
  classification : Option String := none
  dhcp_fingerprint : Option String := none
  vendor_class : Option String := none
  classification_method : String := "unknown"
  overall_confidence : String := "unknown"
  fingerbank_confidence : Option Nat := none
  dhcp_fingerprint_confidence : Option String := none
  fingerbank_error : Option String := none
deriving Repr, DecidableEq

/-- Result of `MACVendorLookup.lookup_vendor` (the fields the analyzer reads). -/
structure VendorLookupResult where
  vendor : Option String := none
  confidence : String := "unknown"
deriving Repr, DecidableEq

/-- Outcome of the oracle call in step 2 of `_classify_device`: no client
configured, an exception raised by `classify_device`, or a returned
`DeviceClassification` (possibly `None`). -/
inductive FBOutcome where
  | noClient : FBOutcome
  | raised : String → FBOutcome
  | returned : Option DeviceClassification → FBOutcome
deriving Repr, DecidableEq

/-! ### `DHCPFingerprintClassifier` -/

/-- `_classify_minimal_device`. -/
def classify_minimal_device (vendor _vendor_class : Option String) : String × String :=
  if truthy vendor then
    let vl := (pyLower (sOf vendor))
    if anyIn ["espressif", "murata"] vl then ("IoT Device", "medium")
    else if strContains vl "philips" then ("Smart Lighting", "medium")
    else ("IoT Device", "low")
  else ("IoT Device", "low")

/-- `_classify_smart_device`. -/
def classify_smart_device (vendor vendor_class : Option String) : String × String :=
  if truthy vendor_class && anyIn ["ps5", "nintendo", "xbox"] (pyLower (sOf vendor_class)) then
    ("Gaming Console", "high")
  else if truthy vendor_class && anyIn ["roku", "fire tv", "chromecast"] (pyLower (sOf vendor_class)) then
    ("Streaming Device", "high")
  else if truthy vendor_class && anyIn ["ring", "nest", "hue"] (pyLower (sOf vendor_class)) then
    ("Smart Home Device", "high")
  else if truthy vendor && strContains (pyLower (sOf vendor)) "amazon" then ("Smart Speaker", "medium")
  else if truthy vendor && strContains (pyLower (sOf vendor)) "philips" then ("Smart Lighting", "medium")
  else if truthy vendor && strContains (pyLower (sOf vendor)) "nintendo" then ("Gaming Console", "high")
  else ("Smart Home Device", "low")

/-- `_classify_mobile_device`. -/
def classify_mobile_device (vendor : Option String) : String × String :=
  if truthy vendor && strContains (pyLower (sOf vendor)) "apple" then ("Phone", "high")
  else if truthy vendor && anyIn ["samsung", "google", "huawei"] (pyLower (sOf vendor)) then
    ("Phone", "high")
  else ("Phone", "medium")

/-- `_classify_complex_device`. -/
def classify_complex_device (vendor_class : Option String) : String × String :=
  if truthy vendor_class &&
      (strContains (pyLower (sOf vendor_class)) "windows" ||
       strContains (pyLower (sOf vendor_class)) "microsoft") then ("Computer", "high")
  else if truthy vendor_class &&
      (strContains (pyLower (sOf vendor_class)) "dhcpcd" ||
       strContains (pyLower (sOf vendor_class)) "linux") then ("Computer", "high")
  else ("Computer", "medium")

/-- Python `s.split(sep)` (the analyzer only uses the number of pieces).
Structural replacement for `String.splitOn`, which does not reduce in the
kernel. -/
def splitCharsAux : List Char → Char → List Char → List (List Char)
  | [], _, cur => [cur.reverse]
  | c :: cs, sep, cur =>
    if c = sep then cur.reverse :: splitCharsAux cs sep []
    else splitCharsAux cs sep (c :: cur)

/-- `DHCPFingerprintClassifier.classify_by_fingerprint`. -/
def classify_by_fingerprint (fingerprint vendor vendor_class _hostname : Option String) :
    Option String × String :=
  if !truthy fingerprint then (none, "none")
  else
    let option_count := (splitCharsAux (sOf fingerprint).toList ',' []).length
    let p :=
      if option_count ≤ 3 then classify_minimal_device vendor vendor_class
      else if option_count ≤ 6 then classify_smart_device vendor vendor_class
      else if 10 ≤ option_count then classify_complex_device vendor_class
      else classify_mobile_device vendor
    (some p.1, p.2)

/-! ### Per-device aggregation (`OptimizedDHCPDeviceAnalyzer`) -/

/-- The additive informativeness score of `_get_best_entry`. -/
def entryScore (e : DHCPLogEntry) : Nat :=
  (if truthy e.hostname then 3 else 0) + (if truthy e.vendor_class then 2 else 0) +
  (if truthy e.dhcp_fingerprint then 2 else 0) + (if e.message_type = some "ACK" then 1 else 0)

/-- One comparison of the best-entry selection: the candidate is replaced
only on a strictly greater score (Python's stable descending sort keeps
the earlier entry on ties). -/
def bestPick (b x : DHCPLogEntry) : DHCPLogEntry :=
  if entryScore b < entryScore x then x else b

/-- `_get_best_entry`: a stable descending sort by score followed by taking
the head selects the earliest entry of maximal score, modelled by a fold
with `bestPick`. -/
def get_best_entry : List DHCPLogEntry → Option DHCPLogEntry
  | [] => none
  | e :: es => some (es.foldl bestPick e)

/-- One step of `_group_entries_by_device` (insertion-ordered dict of lists). -/
def addEntryToGroups (acc : List (String × List DHCPLogEntry)) (e : DHCPLogEntry) :
    List (String × List DHCPLogEntry) :=
  if acc.any (fun g => g.1 = e.mac_address) then
    acc.map (fun g => if g.1 = e.mac_address then (g.1, g.2 ++ [e]) else g)
  else acc ++ [(e.mac_address, [e])]

/-- `_group_entries_by_device`. -/
def group_entries_by_device (entries : List DHCPLogEntry) :
    List (String × List DHCPLogEntry) :=
  entries.foldl addEntryToGroups []

/-- `critical_patterns` of `_has_critical_hostname_pattern`. -/
def critical_patterns : List String := [
  "smart-tv", "smart_tv", "-tv-", "tv-", "samsung-tv", "lg-tv", "sony-tv",
  "ring-camera", "ring-doorbell", "security-cam", "ip-camera",
  "ps4-console", "ps5-console", "xbox-", "nintendo-",
  "hp-printer", "canon-printer", "epson-printer", "laser-printer",
  "nest-thermostat", "smart-thermostat", "ecobee",
  "firetv-stick", "roku-stick", "appletv", "chromecast",
  "echo-dot", "echo-show", "google-home", "homepod"
]

def has_critical_hostname_pattern (hostname : String) : Bool :=
  anyIn critical_patterns (pyLower hostname)

/-- `strong_patterns` of `_has_strong_hostname_pattern`. -/
def strong_patterns : List String := [
  "ring-camera", "ring-doorbell", "nest-thermostat", "nest-cam",
  "chromecast", "firetv", "fire-tv", "roku", "appletv",
  "ps4", "ps5", "xbox", "nintendo", "switch",
  "esp32", "esp8266", "raspberry", "arduino",
  "printer", "hp-print", "canon-print", "epson-print",
  "echo-", "alexa-", "google-home", "homepod"
]

def has_strong_hostname_pattern (hostname : String) : Bool :=
  anyIn strong_patterns (pyLower hostname)

def routing_component_manufacturers : List String :=
  ["intel", "giga-byte", "micro-star", "asrock", "nvidia", "amd"]

/-- `_should_route_to_enhanced_classifier`: the ordered trigger chain. -/
def should_route_to_enhanced_classifier (fb : DeviceClassification)
    (hostname vendor_class : Option String) (vendor : String) : Bool :=
  if fb.confidence_score ≤ 40 then true
  else if !fb.device_hierarchy.isEmpty &&
      strContains (pyLower (String.intercalate " " fb.device_hierarchy)) "hardware manufacturer" then
    true
  else if truthy fb.device_name &&
      strContains (pyLower (sOf fb.device_name)) "hardware manufacturer" then true
  else if truthy hostname && has_critical_hostname_pattern (sOf hostname) then true
  else if truthy hostname && fb.confidence_score ≤ 50 &&
      has_strong_hostname_pattern (sOf hostname) then true
  else if anyIn routing_component_manufacturers (pyLower vendor) && fb.confidence_score ≤ 60 then
    true
  else if truthy vendor_class && anyIn ["udhcp", "busybox", "dhcpcd"] (pyLower (sOf vendor_class)) &&
      fb.confidence_score ≤ 55 then true
  else false

/-- `_try_enhanced_classification_preferred`: the empty dict becomes `none`. -/
def try_enhanced_classification_preferred (entry : DHCPLogEntry) (vendor : Option String) :
    Option EnhResult :=
  let r := enhanced_classification entry.hostname entry.vendor_class entry.dhcp_fingerprint vendor
  if (r.confidence = "high" || r.confidence = "very_high" || r.confidence = "medium") &&
      truthy r.device_type then some r
  else if (r.method = "hostname_specific" || r.method = "iot_signature") &&
      truthy r.device_type then some r
  else none

/-! ### Selective Fingerbank override (`_apply_selective_override` family) -/

/-- `high_confidence_patterns` of `_apply_selective_override`, in dict order. -/
def high_confidence_patterns : List (String × List String) := [
  ("Smart Camera", ["ring-camera", "ring-doorbell", "nest-cam", "arlo-camera",
                    "wyze-cam", "blink-camera", "eufy-cam", "security-camera"]),
  ("Smart Speaker", ["echo-dot", "echo-show", "echo-studio", "google-home",
                     "nest-mini", "homepod", "alexa-device"]),
  ("Smart Thermostat", ["nest-thermostat", "ecobee", "honeywell-thermostat", "smart-thermostat"]),
  ("Streaming Device", ["firetv-stick", "fire-tv", "roku-stick", "chromecast",
                        "appletv", "nvidia-shield", "streaming-stick"]),
  ("Gaming Console", ["ps4-console", "ps5-console", "xbox-one", "xbox-series",
                      "nintendo-switch", "playstation", "gaming-console"]),
  ("Printer", ["hp-printer", "canon-printer", "epson-printer", "brother-printer",
               "laser-printer", "inkjet-printer", "network-printer"]),
  ("Smart TV", ["smart-tv", "samsung-tv", "lg-tv", "sony-tv", "android-tv", "webos-tv"]),
  ("Phone", ["iphone-", "galaxy-s", "pixel-", "oneplus-", "huawei-p", "xiaomi-mi"])
]

/-- `device_categories` of `_is_clear_device_conflict`, in dict order.  The
source loop has no `break`, so for a type in several lists the LAST
matching category wins. -/
def device_categories : List (String × List String) := [
  ("mobile", ["Phone", "Tablet"]),
  ("computer", ["Computer", "Laptop", "Desktop"]),
  ("smart_home", ["Smart Camera", "Smart Speaker", "Smart Thermostat", "Smart TV"]),
  ("entertainment", ["Gaming Console", "Streaming Device", "Smart TV"]),
  ("network", ["Network Device", "Router", "Access Point"]),
  ("iot", ["IoT Device", "Smart Camera", "Smart Speaker", "Smart Thermostat"])
]

/-- Category of a device type under the source's last-match-wins loop. -/
def categoryOfStr (t : String) : Option String :=
  device_categories.foldl (fun acc ce => if ce.2.contains t then some ce.1 else acc) none

def categoryOf : Option String → Option String
  | some t => categoryOfStr t
  | none => none

/-- `overlapping_pairs` of `_categories_overlap` — note the source has a
THIRD pair `(entertainment, iot)`. -/
def overlapping_pairs : List (String × String) :=
  [("smart_home", "iot"), ("entertainment", "smart_home"), ("entertainment", "iot")]

/-- `_categories_overlap`. -/
def categories_overlap (c1 c2 : String) : Bool :=
  overlapping_pairs.contains (c1, c2) || overlapping_pairs.contains (c2, c1)

/-- `_is_clear_device_conflict`. -/
def is_clear_device_conflict (fingerbank_type : Option String) (hostname_type : String) : Bool :=
  match categoryOf fingerbank_type, categoryOfStr hostname_type with
  | some a, some b => a ≠ b && !categories_overlap a b
  | _, _ => false

/-- `critical_patterns` of `_is_critical_override_case` (the two device-type
arguments of the source function are ignored by its body). -/
def critical_override_patterns : List String :=
  ["ring-camera", "ring-doorbell", "ps4-console", "ps5-console", "xbox-one", "xbox-series",
   "firetv-stick", "roku-stick", "nest-thermostat", "hp-printer", "canon-printer"]

def is_critical_override_case (hostname_lower : String) : Bool :=
  anyIn critical_override_patterns hostname_lower

/-- `_infer_os_from_device_type`. -/
def infer_os_from_device_type (dt hostname_lower : String) : String :=
  if dt = "Smart Camera" then "Linux"
  else if dt = "Smart Speaker" then "Linux"
  else if dt = "Smart Thermostat" then "Linux"
  else if dt = "Streaming Device" then
    (if strContains hostname_lower "firetv" then "Android TV" else "Linux")
  else if dt = "Gaming Console" then
    (if anyIn ["ps4", "ps5", "playstation"] hostname_lower then "PlayStation OS"
     else if strContains hostname_lower "xbox" then "Xbox OS"
     else "Nintendo OS")
  else if dt = "Printer" then "Embedded OS"
  else if dt = "Smart TV" then
    (if strContains hostname_lower "android" then "Android TV"
     else if strContains hostname_lower "lg" then "webOS"
     else "Tizen")
  else if dt = "Phone" then
    (if strContains hostname_lower "iphone" then "iOS" else "Android")
  else "Unknown"

structure OverrideResult where
  device_type : String
  operating_system : String
  method : String
deriving Repr, DecidableEq

/-- The should-override/reason decision inside `_apply_selective_override`
(independent of which pattern of the entry matched). -/
def selectiveDecision (score : Nat) (hostname_lower : String) (current : Option String)
    (dt : String) : Option String :=
  if score ≤ 40 then some ("low_confidence_" ++ toString score)
  else if score ≤ 60 && is_clear_device_conflict current dt then
    some ("device_conflict_" ++ toString score)
  else if 60 < score && is_critical_override_case hostname_lower then
    some ("critical_override_" ++ toString score)
  else none

/-- The pattern-table scan of `_apply_selective_override`: an entry whose
pattern matches yields an override only when its device type differs from
the current one and the decision fires; otherwise the scan continues. -/
def overrideScan (score : Nat) (hostname_lower : String) (current : Option String) :
    List (String × List String) → Option OverrideResult
  | [] => none
  | (dt, pats) :: rest =>
    if pats.any (fun p => strContains hostname_lower p) && some dt ≠ current then
      match selectiveDecision score hostname_lower current dt with
      | some reason =>
        some { device_type := dt,
               operating_system := infer_os_from_device_type dt hostname_lower,
               method := "fingerbank_override_" ++ reason }
      | none => overrideScan score hostname_lower current rest
    else overrideScan score hostname_lower current rest

/-- `_apply_selective_override` (its `vendor` parameter is unused in the
source body). -/
def apply_selective_override (fb : Option DeviceClassification)
    (hostname _vendor : Option String) (current : Option String) : Option OverrideResult :=
  match fb with
  | none => none
  | some f =>
    if !truthy hostname then none
    else overrideScan f.confidence_score (pyLower (sOf hostname)) current high_confidence_patterns

/-! ### Overall confidence (`_calculate_overall_confidence`) -/

/-- Python truthiness of an optional integer: `None` and `0` are falsy. -/
def natTruthy : Option Nat → Bool
  | none => false
  | some n => n != 0

/-- `_calculate_overall_confidence`. -/
def calculate_overall_confidence (r : DeviceClassificationResult) : String :=
  let s0 := if truthy r.vendor then 20 else 0
  let s1 := s0 +
    (if r.classification_method == "fingerbank" && natTruthy r.fingerbank_confidence then
      (if 80 ≤ r.fingerbank_confidence.getD 0 then 60
       else if 60 ≤ r.fingerbank_confidence.getD 0 then 40
       else 20)
     else if r.classification_method == "hostname_specific" then 50
     else if r.classification_method == "dhcp_fingerprint" then
      (if r.dhcp_fingerprint_confidence == some "high" then 40
       else if r.dhcp_fingerprint_confidence == some "medium" then 25
       else 10)
     else if r.classification_method == "enhanced_fallback" then 15
     else 0)
  let s2 := s1 + (if truthy r.hostname then 10 else 0) + (if truthy r.vendor_class then 10 else 0)
  if 80 ≤ s2 then "high"
  else if 50 ≤ s2 then "medium"
  else if 30 ≤ s2 then "low"
  else "unknown"

/-! ### `_classify_device` on the selected best entry.

`_get_best_entry` never receives an empty group (the grouping always puts
at least one entry in a group), so `_classify_device` is modelled on the
best entry directly; the vendor lookup result and the oracle outcome are
the two collaborator inputs. -/

/-- Steps 0-1 of `_classify_device`: initial result and vendor lookup. -/
def classify_step1 (mac : String) (best : DHCPLogEntry)
    (vendor_info : Option VendorLookupResult) : DeviceClassificationResult :=
  let r0 : DeviceClassificationResult :=
    { mac_address := mac, ip_address := best.ip_address, hostname := best.hostname,
      dhcp_fingerprint := best.dhcp_fingerprint, vendor_class := best.vendor_class }
  match vendor_info with
  | some v =>
    if truthy v.vendor then { r0 with vendor := v.vendor, vendor_confidence := v.confidence }
    else r0
  | none => r0

/-- Step 2 of `_classify_device`: record the oracle outcome; the returned
triple carries the updated result, the oracle candidate when one was
produced, and the `fingerbank_classified` flag. -/
def classify_step2 (r1 : DeviceClassificationResult) (fb : FBOutcome) :
    DeviceClassificationResult × Option DeviceClassification × Bool :=
  match fb with
  | .noClient => (r1, none, false)
  | .raised e => ({ r1 with fingerbank_error := some e }, none, false)
  | .returned none => ({ r1 with fingerbank_error := some "No response" }, none, false)
  | .returned (some fr) =>
    if !truthy fr.error_message then
      let ra := { r1 with fingerbank_confidence := some fr.confidence_score,
                          device_name := fr.device_name }
      let rb :=
        if truthy fr.device_type then
          { ra with device_type := fr.device_type, classification_method := "fingerbank" }
        else ra
      let rc :=
        if truthy fr.operating_system then { rb with operating_system := fr.operating_system }
        else rb
      (rc, some fr, truthy fr.device_type)
    else ({ r1 with fingerbank_error := fr.error_message }, some fr, false)

/-- Steps 2.5-2.6 of `_classify_device`: routing decision, enhanced-preferred
reclassification, and the selective Fingerbank override. -/
def classify_step25 (best : DHCPLogEntry) (r2 : DeviceClassificationResult)
    (fr : DeviceClassification) : DeviceClassificationResult :=
  let should_use_enhanced :=
    should_route_to_enhanced_classifier fr best.hostname best.vendor_class (sOf r2.vendor)
  let ra :=
    if should_use_enhanced then
      match try_enhanced_classification_preferred best r2.vendor with
      | some er =>
        if truthy er.device_type then
          { r2 with device_type := er.device_type,
                    operating_system := er.operating_system,
                    classification_method := "enhanced_preferred_" ++ er.method,
                    overall_confidence := er.confidence }
        else r2
      | none => r2
    else r2
  if !should_use_enhanced && truthy best.hostname then
    match apply_selective_override (some fr) best.hostname r2.vendor r2.device_type with
    | some ov =>
      { ra with device_type := some ov.device_type,
                operating_system := some ov.operating_system,
                classification_method := ov.method,
                overall_confidence := "high" }
    | none => ra
  else ra

/-- Step 3 of `_classify_device`: local fallback when the oracle did not
classify. -/
def classify_step3 (best : DHCPLogEntry) (r3 : DeviceClassificationResult) :
    DeviceClassificationResult :=
  let ra :=
    if truthy best.hostname then
      let fres :=
        enhanced_classification best.hostname best.vendor_class best.dhcp_fingerprint r3.vendor
      if fres.hostname_override && truthy fres.device_type then
        let rb := { r3 with device_type := fres.device_type,
                            classification_method := "hostname_specific" }
        if truthy fres.operating_system && rb.operating_system.isNone then
          { rb with operating_system := fres.operating_system }
        else rb
      else r3
    else r3
  let rb :=
    if ra.device_type.isNone && truthy best.dhcp_fingerprint then
      let dres := classify_by_fingerprint best.dhcp_fingerprint ra.vendor
        best.vendor_class best.hostname
      match dres.1 with
      | some dt =>
        { ra with device_type := some dt, dhcp_fingerprint_confidence := some dres.2,
                  classification_method := "dhcp_fingerprint" }
      | none => ra
    else ra
  if rb.device_type.isNone || rb.operating_system.isNone then
    let fres :=
      enhanced_classification best.hostname best.vendor_class best.dhcp_fingerprint rb.vendor
    let rc :=
      if rb.device_type.isNone && truthy fres.device_type then
        { rb with device_type := fres.device_type,
                  classification_method := "enhanced_fallback" }
      else rb
    if rc.operating_system.isNone && truthy fres.operating_system then
      { rc with operating_system := fres.operating_system }
    else rc
  else rb

/-- Final processing of `_classify_device`: combined label and overall
confidence. -/
def classify_final (r4 : DeviceClassificationResult) : DeviceClassificationResult :=
  let r5 := { r4 with
    classification := some (if truthy r4.device_type then sOf r4.device_type else "Unknown") }
  { r5 with overall_confidence := calculate_overall_confidence r5 }

/-- `_classify_device` on the selected best entry (composition of the
stages above, in source order). -/
def classify_device (mac : String) (best : DHCPLogEntry)
    (vendor_info : Option VendorLookupResult) (fb : FBOutcome) : DeviceClassificationResult :=
  let r2p := classify_step2 (classify_step1 mac best vendor_info) fb
  let r3 :=
    match r2p.2.1, r2p.2.2 with
    | some fr, true => classify_step25 best r2p.1 fr
    | _, _ => r2p.1
  let r4 := if !r2p.2.2 then classify_step3 best r3 else r3
  classify_final r4

/-! ### Batch loop of the top-level `dhcp_device_analyzer.py`
(`analyze_dhcp_log`, lines 395-418): a per-device exception is caught and
turned into an error result, and the loop continues. -/

/-- The classification loop of `analyze_dhcp_log`, parameterised by the
per-device classifier (which may fail with an exception message). -/
def analyze_loop
    (classify : String → List DHCPLogEntry → Except String DeviceClassificationResult)
    (groups : List (String × List DHCPLogEntry)) : List DeviceClassificationResult :=
  groups.map (fun g =>
    match classify g.1 g.2 with
    | .ok r => r
    | .error e =>
      { mac_address := g.1, classification := some ("Classification failed: " ++ e),
        overall_confidence := "error" })

/-! ### Spec-side definitions, written from the spec's words, for the
refinement comparisons of the selective override (§4.4) and the overall
confidence scale (§4.5). -/

/-- Modelled from the spec: the overlap list as the claim states it —
"exactly the pairs smart-home↔iot and entertainment↔smart-home". -/
def spec_overlapping_pairs : List (String × String) :=
  [("smart_home", "iot"), ("entertainment", "smart_home")]

def spec_categories_overlap (c1 c2 : String) : Bool :=
  spec_overlapping_pairs.contains (c1, c2) || spec_overlapping_pairs.contains (c2, c1)

/-- Modelled from the spec: clear conflict = different, non-overlapping
semantic categories, with the spec's two-pair overlap list. -/
def spec_clear_device_conflict (fingerbank_type : Option String) (hostname_type : String) :
    Bool :=
  match categoryOf fingerbank_type, categoryOfStr hostname_type with
  | some a, some b => a ≠ b && !spec_categories_overlap a b
  | _, _ => false

/-- Modelled from the spec: the claim's selective-override applicability
condition (b): confidence ≤ 40, or ≤ 60 with a category conflict under the
spec's overlap list, or > 60 with a critical-list hostname. -/
def spec_override_condition (score : Nat) (hostname_lower : String) (current : Option String)
    (dt : String) : Bool :=
  decide (score ≤ 40) ||
  (decide (score ≤ 60) && spec_clear_device_conflict current dt) ||
  (decide (60 < score) && is_critical_override_case hostname_lower)

/-- Modelled from the spec: method contribution of the claim's point scale
("fingerbank +60 when ≥ 80, +40 when ≥ 60, else +20; hostname_specific
flat +50; dhcp_fingerprint +40/+25/+10; enhanced_fallback +15"). -/
def spec_method_points (r : DeviceClassificationResult) : Nat :=
  if r.classification_method == "fingerbank" then
    (if 80 ≤ r.fingerbank_confidence.getD 0 then 60
     else if 60 ≤ r.fingerbank_confidence.getD 0 then 40
     else 20)
  else if r.classification_method == "hostname_specific" then 50
  else if r.classification_method == "dhcp_fingerprint" then
    (if r.dhcp_fingerprint_confidence == some "high" then 40
     else if r.dhcp_fingerprint_confidence == some "medium" then 25
     else 10)
  else if r.classification_method == "enhanced_fallback" then 15
  else 0

/-- Modelled from the spec: the claim's total point scale with the vendor
bonus granted exactly when the vendor is known, i.e. NOT for the
"Unknown" fallback vendor. -/
def spec_overall_points (r : DeviceClassificationResult) : Nat :=
  (if truthy r.vendor && r.vendor != some "Unknown" then 20 else 0) +
  spec_method_points r +
  (if truthy r.hostname then 10 else 0) + (if truthy r.vendor_class then 10 else 0)

/-- The tier thresholds of the spec: ≥80 high, ≥50 medium, ≥30 low. -/
def spec_tier (n : Nat) : String :=
  if 80 ≤ n then "high"
  else if 50 ≤ n then "medium"
  else if 30 ≤ n then "low"
  else "unknown"

/-- Amended method contribution: the fingerbank tier applies only when a
NONZERO oracle confidence is recorded (Python truthiness of the score),
matching the source's guard. -/
def amended_method_points (r : DeviceClassificationResult) : Nat :=
  if r.classification_method == "fingerbank" && natTruthy r.fingerbank_confidence then
    (if 80 ≤ r.fingerbank_confidence.getD 0 then 60
     else if 60 ≤ r.fingerbank_confidence.getD 0 then 40
     else 20)
  else if r.classification_method == "hostname_specific" then 50
  else if r.classification_method == "dhcp_fingerprint" then
    (if r.dhcp_fingerprint_confidence == some "high" then 40
     else if r.dhcp_fingerprint_confidence == some "medium" then 25
     else 10)
  else if r.classification_method == "enhanced_fallback" then 15
  else 0

/-- Amended total point scale: the +20 vendor bonus is granted whenever a
non-empty vendor string is present, INCLUDING the "Unknown" fallback. -/
def amended_overall_points (r : DeviceClassificationResult) : Nat :=
  (if truthy r.vendor then 20 else 0) +
  amended_method_points r +
  (if truthy r.hostname then 10 else 0) + (if truthy r.vendor_class then 10 else 0)

/-! ### Helper lemmas: confidence ordering and per-step facts of the
fallback chain. -/

/-- Numeric rank of the confidence ladder low < medium < high. -/
def confRank (c : String) : Nat :=
  if c = "high" then 2 else if c = "medium" then 1 else 0

theorem confRank_le_two (c : String) : confRank c ≤ 2 := by
  unfold confRank
  repeat' split
  all_goals omega

theorem confRank_le_one_of_ne_high (c : String) (h : c ≠ "high") : confRank c ≤ 1 := by
  unfold confRank
  repeat' split
  all_goals first | omega | exact absurd (by assumption) h

theorem confRank_high : confRank "high" = 2 := by decide

theorem confRank_medium : confRank "medium" = 1 := by decide

theorem m2_conf_mono (fp : Option String) (s : EnhResult) :
    confRank s.confidence ≤ confRank ((m2 fp) s).confidence := by
  unfold m2
  repeat' split
  all_goals simp_all [confRank_high, confRank_medium, confRank_le_two]

theorem m2_pres_dt (fp : Option String) (s : EnhResult) :
    (m2 fp s).device_type = s.device_type := by
  unfold m2
  repeat' split
  all_goals rfl

theorem m2_pres_os (fp : Option String) (s : EnhResult) (o : String)
    (h : s.operating_system = some o) : (m2 fp s).operating_system = some o := by
  unfold m2
  repeat' split
  all_goals simp_all

theorem confRank_low : confRank "low" = 0 := by decide

theorem setOsStep_conf_mono (o : Option String) (meth : String) (s : EnhResult) :
    confRank s.confidence ≤ confRank (setOsStep o meth s).confidence := by
  unfold setOsStep
  repeat' split
  all_goals simp_all [confRank_high, confRank_medium, confRank_low, confRank_le_two]

theorem setOsStep_conf_mem (o : Option String) (meth : String) (s : EnhResult) :
    (setOsStep o meth s).confidence = s.confidence ∨
      (setOsStep o meth s).confidence = "medium" := by
  unfold setOsStep
  repeat' split
  all_goals simp_all

theorem setOsStep_dt (o : Option String) (meth : String) (s : EnhResult) :
    (setOsStep o meth s).device_type = s.device_type := by
  unfold setOsStep
  split
  all_goals rfl

theorem setOsStep_ov (o : Option String) (meth : String) (s : EnhResult) :
    (setOsStep o meth s).hostname_override = s.hostname_override := by
  unfold setOsStep
  split
  all_goals rfl

theorem setOsStep_pres_os (o : Option String) (meth : String) (s : EnhResult) (o' : String)
    (h : s.operating_system = some o') : (setOsStep o meth s).operating_system = some o' := by
  unfold setOsStep
  split
  all_goals simp_all

theorem setDtStep_conf (d : Option String) (s : EnhResult) :
    (setDtStep d s).confidence = s.confidence := by
  unfold setDtStep
  split
  all_goals rfl

theorem setDtStep_os (d : Option String) (s : EnhResult) :
    (setDtStep d s).operating_system = s.operating_system := by
  unfold setDtStep
  split
  all_goals rfl

theorem setDtStep_ov (d : Option String) (s : EnhResult) :
    (setDtStep d s).hostname_override = s.hostname_override := by
  unfold setDtStep
  split
  all_goals rfl

theorem setDtStep_pres_dt (d : Option String) (s : EnhResult) (d' : String)
    (h : s.device_type = some d') : (setDtStep d s).device_type = some d' := by
  unfold setDtStep
  split
  all_goals simp_all

theorem m1dt_conf_mono (hdt : Option String) (vh : Bool) (s : EnhResult) :
    confRank s.confidence ≤ confRank (m1dt hdt vh s).confidence := by
  unfold m1dt
  repeat' split
  all_goals simp_all [confRank_high, confRank_le_two]

theorem m1dt_conf_mem (hdt : Option String) (vh : Bool) (s : EnhResult) :
    (m1dt hdt vh s).confidence = s.confidence ∨ (m1dt hdt vh s).confidence = "high" := by
  unfold m1dt
  repeat' split
  all_goals simp_all

theorem m1os_conf_mono (hos : Option String) (vh : Bool) (s : EnhResult) :
    confRank s.confidence ≤ confRank (m1os hos vh s).confidence := by
  unfold m1os
  repeat' split
  all_goals first
    | rfl
    | (rw [confRank_medium]; exact confRank_le_one_of_ne_high _ (by assumption))
    | simp_all [confRank_high, confRank_medium, confRank_low, confRank_le_two]

theorem m1os_conf_mem (hos : Option String) (vh : Bool) (s : EnhResult) :
    (m1os hos vh s).confidence = s.confidence ∨
      (m1os hos vh s).confidence = "medium" := by
  unfold m1os
  repeat' split
  all_goals simp_all

theorem m1_conf_mono (h : Option String) (s : EnhResult) :
    confRank s.confidence ≤ confRank ((m1 h) s).confidence := by
  unfold m1
  split
  · exact le_trans (m1dt_conf_mono _ _ s) (m1os_conf_mono _ _ _)
  · exact le_refl _

theorem m1_conf_mem (h : Option String) (s : EnhResult) :
    (m1 h s).confidence = s.confidence ∨ (m1 h s).confidence = "medium" ∨
      (m1 h s).confidence = "high" := by
  unfold m1
  split
  · rcases m1os_conf_mem (classify_by_hostname h).1 (hostnameVeryHigh h)
      (m1dt (classify_by_hostname h).2 (hostnameVeryHigh h) s) with h1 | h1
    · rcases m1dt_conf_mem (classify_by_hostname h).2 (hostnameVeryHigh h) s with h2 | h2
      · exact Or.inl (h1.trans h2)
      · exact Or.inr (Or.inr (h1.trans h2))
    · exact Or.inr (Or.inl h1)
  · exact Or.inl rfl

theorem m4_conf_mono (h v : Option String) (s : EnhResult) :
    confRank s.confidence ≤ confRank ((m4 h v) s).confidence := by
  unfold m4
  split
  · rw [setDtStep_conf]
    exact setOsStep_conf_mono _ _ _
  · exact le_refl _

theorem m4_conf_mem (h v : Option String) (s : EnhResult) :
    (m4 h v s).confidence = s.confidence ∨ (m4 h v s).confidence = "medium" ∨
      (m4 h v s).confidence = "high" := by
  unfold m4
  split
  · rw [setDtStep_conf]
    rcases setOsStep_conf_mem (classify_by_iot_signature h v).1 "iot_signature" s with h1 | h1
    · exact Or.inl h1
    · exact Or.inr (Or.inl h1)
  · exact Or.inl rfl

theorem m5_conf_mono (v : Option String) (s : EnhResult) :
    confRank s.confidence ≤ confRank ((m5 v) s).confidence := by
  unfold m5
  split
  · rw [setDtStep_conf]
    exact setOsStep_conf_mono _ _ _
  · exact le_refl _

theorem m5_conf_mem (v : Option String) (s : EnhResult) :
    (m5 v s).confidence = s.confidence ∨ (m5 v s).confidence = "medium" ∨
      (m5 v s).confidence = "high" := by
  unfold m5
  split
  · rw [setDtStep_conf]
    rcases setOsStep_conf_mem (classify_by_vendor_rules v).1 "vendor_rules" s with h1 | h1
    · exact Or.inl h1
    · exact Or.inr (Or.inl h1)
  · exact Or.inl rfl

theorem m6_conf_mono (h : Option String) (s : EnhResult) :
    confRank s.confidence ≤ confRank ((m6 h) s).confidence := by
  unfold m6
  split
  · rw [setDtStep_conf]
    exact setOsStep_conf_mono _ _ _
  · exact le_refl _

theorem m6_conf_mem (h : Option String) (s : EnhResult) :
    (m6 h s).confidence = s.confidence ∨ (m6 h s).confidence = "medium" ∨
      (m6 h s).confidence = "high" := by
  unfold m6
  split
  · rw [setDtStep_conf]
    rcases setOsStep_conf_mem (classify_by_hostname h).1 "hostname" s with h1 | h1
    · exact Or.inl h1
    · exact Or.inr (Or.inl h1)
  · exact Or.inl rfl

theorem m7_conf_mono (v : Option String) (s : EnhResult) :
    confRank s.confidence ≤ confRank ((m7 v) s).confidence := by
  simp only [m7]
  repeat' split
  all_goals first
    | rfl
    | (rw [confRank_medium]; exact confRank_le_one_of_ne_high _ (by assumption))
    | simp_all [confRank_high, confRank_medium, confRank_low, confRank_le_two]

theorem m7_conf_mem (v : Option String) (s : EnhResult) :
    (m7 v s).confidence = s.confidence ∨ (m7 v s).confidence = "medium" ∨
      (m7 v s).confidence = "high" := by
  simp only [m7]
  repeat' split
  all_goals simp_all

theorem m8_conf_mono (vc v : Option String) (s : EnhResult) :
    confRank s.confidence ≤ confRank ((m8 vc v) s).confidence := by
  simp only [m8]
  repeat' split
  all_goals first
    | rfl
    | (rw [confRank_medium]; exact confRank_le_one_of_ne_high _ (by assumption))
    | simp_all [confRank_high, confRank_medium, confRank_low, confRank_le_two]

theorem m8_conf_mem (vc v : Option String) (s : EnhResult) :
    (m8 vc v s).confidence = s.confidence ∨ (m8 vc v s).confidence = "medium" ∨
      (m8 vc v s).confidence = "high" := by
  simp only [m8]
  repeat' split
  all_goals simp_all

theorem m9_conf_mono (v vc : Option String) (s : EnhResult) :
    confRank s.confidence ≤ confRank ((m9 v vc) s).confidence := by
  simp only [m9]
  repeat' split
  all_goals first
    | rfl
    | (rw [confRank_medium]; exact confRank_le_one_of_ne_high _ (by assumption))
    | simp_all [confRank_high, confRank_medium, confRank_low, confRank_le_two]

theorem m9_conf_mem (v vc : Option String) (s : EnhResult) :
    (m9 v vc s).confidence = s.confidence ∨ (m9 v vc s).confidence = "medium" ∨
      (m9 v vc s).confidence = "high" := by
  simp only [m9]
  repeat' split
  all_goals simp_all

theorem m10_conf_mono (h v : Option String) (s : EnhResult) :
    confRank s.confidence ≤ confRank ((m10 h v) s).confidence := by
  simp only [m10]
  repeat' split
  all_goals first
    | rfl
    | (rw [confRank_medium]; exact confRank_le_one_of_ne_high _ (by assumption))
    | simp_all [confRank_high, confRank_medium, confRank_low, confRank_le_two]

theorem m10_conf_mem (h v : Option String) (s : EnhResult) :
    (m10 h v s).confidence = s.confidence ∨ (m10 h v s).confidence = "medium" ∨
      (m10 h v s).confidence = "high" := by
  simp only [m10]
  repeat' split
  all_goals simp_all

theorem m3_pres_dt (vc : Option String) (s : EnhResult) :
    (m3 vc s).device_type = s.device_type := by
  unfold m3
  repeat' split
  all_goals rfl

theorem m3_pres_os (vc : Option String) (s : EnhResult) (o : String)
    (h : s.operating_system = some o) : (m3 vc s).operating_system = some o := by
  unfold m3
  repeat' split
  all_goals simp_all

theorem m4_pres_dt (hn v : Option String) (s : EnhResult) (d : String)
    (h : s.device_type = some d) : (m4 hn v s).device_type = some d := by
  simp only [m4]
  split
  · exact setDtStep_pres_dt _ _ _ ((setOsStep_dt _ _ _).trans h)
  · exact h

theorem m4_pres_os (hn v : Option String) (s : EnhResult) (o : String)
    (h : s.operating_system = some o) : (m4 hn v s).operating_system = some o := by
  simp only [m4]
  split
  · exact (setDtStep_os _ _).trans (setOsStep_pres_os _ _ _ _ h)
  · exact h

theorem m5_pres_dt (v : Option String) (s : EnhResult) (d : String)
    (h : s.device_type = some d) : (m5 v s).device_type = some d := by
  simp only [m5]
  split
  · exact setDtStep_pres_dt _ _ _ ((setOsStep_dt _ _ _).trans h)
  · exact h

theorem m5_pres_os (v : Option String) (s : EnhResult) (o : String)
    (h : s.operating_system = some o) : (m5 v s).operating_system = some o := by
  simp only [m5]
  split
  · exact (setDtStep_os _ _).trans (setOsStep_pres_os _ _ _ _ h)
  · exact h

theorem m6_pres_dt (hn : Option String) (s : EnhResult) (d : String)
    (h : s.device_type = some d) : (m6 hn s).device_type = some d := by
  simp only [m6]
  split
  · exact setDtStep_pres_dt _ _ _ ((setOsStep_dt _ _ _).trans h)
  · exact h

theorem m6_pres_os (hn : Option String) (s : EnhResult) (o : String)
    (h : s.operating_system = some o) : (m6 hn s).operating_system = some o := by
  simp only [m6]
  split
  · exact (setDtStep_os _ _).trans (setOsStep_pres_os _ _ _ _ h)
  · exact h

theorem m7_pres_dt (v : Option String) (s : EnhResult) (d : String)
    (h : s.device_type = some d) : (m7 v s).device_type = some d := by
  simp only [m7]
  repeat' split
  all_goals simp_all

theorem m7_pres_os (v : Option String) (s : EnhResult) (o : String)
    (h : s.operating_system = some o) : (m7 v s).operating_system = some o := by
  simp only [m7]
  repeat' split
  all_goals simp_all

theorem m8_pres_dt (vc v : Option String) (s : EnhResult) (d : String)
    (h : s.device_type = some d) : (m8 vc v s).device_type = some d := by
  simp only [m8]
  repeat' split
  all_goals simp_all

theorem m8_pres_os (vc v : Option String) (s : EnhResult) (o : String)
    (h : s.operating_system = some o) : (m8 vc v s).operating_system = some o := by
  simp only [m8]
  repeat' split
  all_goals simp_all

theorem m9_pres_dt (v vc : Option String) (s : EnhResult) (d : String)
    (h : s.device_type = some d) : (m9 v vc s).device_type = some d := by
  simp only [m9]
  repeat' split
  all_goals simp_all

theorem m9_pres_os (v vc : Option String) (s : EnhResult) (o : String)
    (h : s.operating_system = some o) : (m9 v vc s).operating_system = some o := by
  simp only [m9]
  repeat' split
  all_goals simp_all

/-- The locked-field preservation property of a chain step: a device type
or operating system that is already set is never replaced. -/
def preservesLocked (f : EnhResult → EnhResult) : Prop :=
  ∀ s : EnhResult,
    (∀ d, s.device_type = some d → (f s).device_type = some d) ∧
    (∀ o, s.operating_system = some o → (f s).operating_system = some o)
theorem bestPick_fold_spec (l : List DHCPLogEntry) (e : DHCPLogEntry) :
    ∃ l1 l2,
      e :: l = l1 ++ (l.foldl bestPick e) :: l2 ∧
      (∀ x ∈ l1, entryScore x < entryScore (l.foldl bestPick e)) ∧
      (∀ x ∈ e :: l, entryScore x ≤ entryScore (l.foldl bestPick e)) := by
  induction l generalizing e with
  | nil =>
    refine ⟨[], [], by simp, by simp, ?_⟩
    intro x hx
    simp only [List.foldl_nil]
    rw [List.mem_singleton] at hx
    subst hx
    exact le_refl _
  | cons x xs ih =>
    have hstep : ((x :: xs).foldl bestPick e) = xs.foldl bestPick (bestPick e x) := rfl
    rcases ih (bestPick e x) with ⟨l1, l2, heq, hlt, hle⟩
    by_cases hx : entryScore e < entryScore x
    · have hbp : bestPick e x = x := by simp [bestPick, hx]
      rw [hbp] at heq hlt hle
      have hxle : entryScore x ≤ entryScore (xs.foldl bestPick x) :=
        hle x (List.mem_cons_self _ _)
      refine ⟨e :: l1, l2, ?_, ?_, ?_⟩
      · rw [hstep, hbp]
        simpa using heq
      · intro y hy
        rcases List.mem_cons.mp hy with hy | hy
        · subst hy
          rw [hstep, hbp]
          exact lt_of_lt_of_le hx hxle
        · rw [hstep, hbp]
          exact hlt y hy
      · intro y hy
        rw [hstep, hbp]
        rcases List.mem_cons.mp hy with hy | hy
        · subst hy
          exact le_of_lt (lt_of_lt_of_le hx hxle)
        · exact hle y hy
    · have hbp : bestPick e x = e := by simp [bestPick, hx]
      rw [hbp] at heq hlt hle
      push_neg at hx
      cases l1 with
      | nil =>
        simp only [List.nil_append] at heq
        obtain ⟨h1, h2⟩ := List.cons_eq_cons.mp heq
        refine ⟨[], x :: xs, ?_, by simp, ?_⟩
        · rw [hstep, hbp, ← h1]
          simp
        · intro y hy
          rw [hstep, hbp, ← h1]
          rcases List.mem_cons.mp hy with hy | hy
          · subst hy; exact le_refl _
          · rcases List.mem_cons.mp hy with hy | hy
            · subst hy; exact hx
            · have := hle y (List.mem_cons_of_mem _ hy)
              rw [← h1] at this
              exact this
      | cons a l1t =>
        obtain ⟨h1, h2⟩ := List.cons_eq_cons.mp heq
        subst h1
        have heLt : entryScore e < entryScore (xs.foldl bestPick e) :=
          hlt e (List.mem_cons_self _ _)
        refine ⟨e :: x :: l1t, l2, ?_, ?_, ?_⟩
        · rw [hstep, hbp]
          simpa using h2
        · intro y hy
          rw [hstep, hbp]
          rcases List.mem_cons.mp hy with hy | hy
          · subst hy; exact heLt
          · rcases List.mem_cons.mp hy with hy | hy
            · subst hy; exact lt_of_le_of_lt hx heLt
            · exact hlt y (List.mem_cons_of_mem _ hy)
        · intro y hy
          rw [hstep, hbp]
          rcases List.mem_cons.mp hy with hy | hy
          · subst hy; exact le_of_lt heLt
          · rcases List.mem_cons.mp hy with hy | hy
            · subst hy; exact le_of_lt (lt_of_le_of_lt hx heLt)
            · exact hle y (List.mem_cons_of_mem _ hy)
theorem addEntry_keys (acc : List (String × List DHCPLogEntry)) (e : DHCPLogEntry) :
    (addEntryToGroups acc e).map Prod.fst =
      if e.mac_address ∈ acc.map Prod.fst then acc.map Prod.fst
      else acc.map Prod.fst ++ [e.mac_address] := by
  unfold addEntryToGroups
  have hmem : (acc.any (fun g => g.1 = e.mac_address) = true) ↔
      e.mac_address ∈ acc.map Prod.fst := by
    rw [List.any_eq_true, List.mem_map]
    constructor
    · rintro ⟨x, hx, h⟩
      exact ⟨x, hx, by simpa using h⟩
    · rintro ⟨x, hx, h⟩
      exact ⟨x, hx, by simpa using h⟩
  split
  · rw [if_pos (hmem.mp (by assumption))]
    rw [List.map_map]
    apply List.map_congr_left
    intro g _
    by_cases hg : g.1 = e.mac_address
    · simp [hg]
    · simp [hg]
  · rw [if_neg (fun hc => (by assumption : ¬_) (hmem.mpr hc))]
    simp

theorem foldl_groups_keys_mem (entries : List DHCPLogEntry)
    (acc : List (String × List DHCPLogEntry)) (m : String) :
    m ∈ (entries.foldl addEntryToGroups acc).map Prod.fst ↔
      m ∈ acc.map Prod.fst ∨ ∃ e ∈ entries, e.mac_address = m := by
  induction entries generalizing acc with
  | nil => simp
  | cons e es ih =>
    rw [List.foldl_cons, ih]
    rw [addEntry_keys]
    constructor
    · intro h
      rcases h with h | h
      · split at h
        · exact Or.inl h
        · rcases List.mem_append.mp h with h | h
          · exact Or.inl h
          · rw [List.mem_singleton] at h
            exact Or.inr ⟨e, List.mem_cons_self _ _, h.symm⟩
      · rcases h with ⟨x, hx, hxm⟩
        exact Or.inr ⟨x, List.mem_cons_of_mem _ hx, hxm⟩
    · intro h
      rcases h with h | ⟨x, hx, hxm⟩
      · left
        split
        · exact h
        · exact List.mem_append.mpr (Or.inl h)
      · rcases List.mem_cons.mp hx with hx | hx
        · subst hx
          left
          split
          · subst hxm; assumption
          · exact List.mem_append.mpr (Or.inr (by simp [hxm]))
        · exact Or.inr ⟨x, hx, hxm⟩

theorem foldl_groups_keys_nodup (entries : List DHCPLogEntry)
    (acc : List (String × List DHCPLogEntry)) (hacc : (acc.map Prod.fst).Nodup) :
    ((entries.foldl addEntryToGroups acc).map Prod.fst).Nodup := by
  induction entries generalizing acc with
  | nil => exact hacc
  | cons e es ih =>
    rw [List.foldl_cons]
    apply ih
    rw [addEntry_keys]
    split
    · exact hacc
    · rw [List.nodup_append]
      exact ⟨hacc, List.nodup_singleton _, by
        intro a ha hb
        rw [List.mem_singleton] at hb
        subst hb
        exact (by assumption : ¬_) ha⟩
theorem selectiveDecision_sound (score : Nat) (hl : String) (current : Option String)
    (dt reason : String) (h : selectiveDecision score hl current dt = some reason) :
    score ≤ 40 ∨ (score ≤ 60 ∧ is_clear_device_conflict current dt = true) ∨
      (60 < score ∧ is_critical_override_case hl = true) := by
  unfold selectiveDecision at h
  split at h
  · exact Or.inl (by assumption)
  · split at h
    · rename_i hc
      simp only [Bool.and_eq_true, decide_eq_true_eq] at hc
      exact Or.inr (Or.inl hc)
    · split at h
      · rename_i hc
        simp only [Bool.and_eq_true, decide_eq_true_eq] at hc
        exact Or.inr (Or.inr hc)
      · exact absurd h (by simp)

theorem overrideScan_sound (score : Nat) (hl : String) (current : Option String)
    (l : List (String × List String)) (r : OverrideResult)
    (h : overrideScan score hl current l = some r) :
    some r.device_type ≠ current ∧
      (score ≤ 40 ∨ (score ≤ 60 ∧ is_clear_device_conflict current r.device_type = true) ∨
        (60 < score ∧ is_critical_override_case hl = true)) := by
  induction l with
  | nil => exact absurd h (by simp [overrideScan])
  | cons p rest ih =>
    rcases p with ⟨dt, pats⟩
    rw [overrideScan] at h
    split at h
    · rename_i hc
      simp only [Bool.and_eq_true, decide_eq_true_eq] at hc
      split at h
      · rename_i reason hdec
        rw [Option.some_inj] at h
        subst h
        exact ⟨hc.2, selectiveDecision_sound score hl current dt reason hdec⟩
      · exact ih h
    · exact ih h
theorem sOf_of_truthy_false (o : Option String) (h : truthy o = false) : sOf o = "" := by
  cases o with
  | none => rfl
  | some s =>
    cases s with
    | mk data =>
      have hd : data = [] := by
        simpa [truthy, sOf, String.toList] using h
      subst hd
      rfl

theorem hm_join_nil :
    strContains (pyLower (String.intercalate " " ([] : List String)))
      "hardware manufacturer" = false := by decide

theorem hm_empty_str :
    strContains (pyLower ("" : String)) "hardware manufacturer" = false := by decide

theorem critical_empty : has_critical_hostname_pattern "" = false := by decide

theorem strong_empty : has_strong_hostname_pattern "" = false := by decide

theorem embedded_empty :
    anyIn ["udhcp", "busybox", "dhcpcd"] (pyLower ("" : String)) = false := by decide

theorem should_route_iff (fb : DeviceClassification) (hostname vendor_class : Option String)
    (vendor : String) :
    should_route_to_enhanced_classifier fb hostname vendor_class vendor = true ↔
      (fb.confidence_score ≤ 40 ∨
       strContains (pyLower (String.intercalate " " fb.device_hierarchy))
         "hardware manufacturer" = true ∨
       strContains (pyLower (sOf fb.device_name)) "hardware manufacturer" = true ∨
       has_critical_hostname_pattern (sOf hostname) = true ∨
       (fb.confidence_score ≤ 50 ∧ has_strong_hostname_pattern (sOf hostname) = true) ∨
       (anyIn routing_component_manufacturers (pyLower vendor) = true ∧
         fb.confidence_score ≤ 60) ∨
       (anyIn ["udhcp", "busybox", "dhcpcd"] (pyLower (sOf vendor_class)) = true ∧
         fb.confidence_score ≤ 55)) := by
  unfold should_route_to_enhanced_classifier
  constructor
  · intro hr
    repeat' split at hr
    all_goals simp_all [Bool.and_eq_true]
    all_goals tauto
  · intro hd
    repeat' split
    all_goals first
    | rfl
    | (exfalso
       rcases hd with hd | hd | hd | hd | ⟨hd1, hd2⟩ | ⟨hd1, hd2⟩ | ⟨hd1, hd2⟩ <;>
         simp_all [Bool.and_eq_true, List.isEmpty_iff, hm_join_nil, hm_empty_str,
           critical_empty, strong_empty, embedded_empty, sOf_of_truthy_false])
/-! ### Concrete facts about the hostname "ring-doorbell-1", used for the
critical-pattern override scenario. -/

theorem iot_ring (v : Option String) :
    classify_by_iot_signature (some "ring-doorbell-1") v =
      (some "Linux", some "Smart Camera") := rfl

theorem m1_ring : m1 (some "ring-doorbell-1") initEnh = initEnh := by decide

theorem conflictScan_ring :
    conflictScan (pyLower (sOf (some "ring-doorbell-1"))) "Smart Camera"
      conflict_device_patterns = none := by decide

theorem critical_ring :
    has_critical_hostname_pattern (sOf (some "ring-doorbell-1")) = true := by decide

theorem m2_init_shape (fp : Option String) :
    m2 fp initEnh = initEnh ∨
      ((m2 fp initEnh).device_type = none ∧ (m2 fp initEnh).hostname_override = false ∧
       (m2 fp initEnh).operating_system.isSome = true ∧ (m2 fp initEnh).confidence = "high") := by
  unfold m2
  repeat' split
  all_goals first
    | (left; rfl)
    | (right; simp_all [initEnh])

theorem m3_init_shape (vc : Option String) :
    m3 vc initEnh = initEnh ∨
      ((m3 vc initEnh).device_type = none ∧ (m3 vc initEnh).hostname_override = false ∧
       (m3 vc initEnh).operating_system.isSome = true ∧ (m3 vc initEnh).confidence = "high") := by
  unfold m3
  repeat' split
  all_goals first
    | (left; rfl)
    | (right; simp_all [initEnh])

theorem m3_noop_os (vc : Option String) (s : EnhResult) (h : s.operating_system.isSome = true) :
    m3 vc s = s := by
  unfold m3
  repeat' split
  all_goals simp_all

theorem s3_ring_shape (vc fp : Option String) :
    (m3 vc (m2 fp initEnh) = initEnh) ∨
      ((m3 vc (m2 fp initEnh)).device_type = none ∧
       (m3 vc (m2 fp initEnh)).hostname_override = false ∧
       (m3 vc (m2 fp initEnh)).operating_system.isSome = true ∧
       (m3 vc (m2 fp initEnh)).confidence = "high") := by
  rcases m2_init_shape fp with h | ⟨h1, h2, h3, h4⟩
  · rw [h]
    exact m3_init_shape vc
  · rw [m3_noop_os vc _ h3]
    exact Or.inr ⟨h1, h2, h3, h4⟩

theorem m4_ring_init (v : Option String) :
    m4 (some "ring-doorbell-1") v initEnh =
      { operating_system := some "Linux", device_type := some "Smart Camera",
        confidence := "medium", method := "iot_signature", hostname_override := false } := rfl

theorem m4_ring_high (v : Option String) (s : EnhResult) (h1 : s.device_type = none)
    (h2 : s.hostname_override = false) (h3 : s.operating_system.isSome = true) :
    m4 (some "ring-doorbell-1") v s = { s with device_type := some "Smart Camera" } := by
  obtain ⟨o, ho⟩ := Option.isSome_iff_exists.mp h3
  simp only [m4, iot_ring, setOsStep, setDtStep]
  simp [h1, h2, ho]

theorem m10_ring_noop (v : Option String) (s : EnhResult)
    (h : s.device_type = some "Smart Camera") : m10 (some "ring-doorbell-1") v s = s := by
  have hs : sOf s.device_type = "Smart Camera" := by rw [h]; rfl
  simp only [m10]
  split
  · have hres : resolve_hostname_vendor_conflicts (some "ring-doorbell-1") v
        (sOf s.device_type) = none := by
      unfold resolve_hostname_vendor_conflicts
      split
      · rw [hs]
        exact conflictScan_ring
      · rfl
    rw [hres]
  · rfl

theorem conf_mh_step (s s' : EnhResult)
    (hmem : s'.confidence = s.confidence ∨ s'.confidence = "medium" ∨ s'.confidence = "high")
    (h : s.confidence = "medium" ∨ s.confidence = "high") :
    s'.confidence = "medium" ∨ s'.confidence = "high" := by
  rcases hmem with h1 | h1 | h1
  · rw [h1]; exact h
  · exact Or.inl h1
  · exact Or.inr h1

theorem enh_ring (vc fp v : Option String) :
    (enhanced_classification (some "ring-doorbell-1") vc fp v).device_type =
        some "Smart Camera" ∧
      ((enhanced_classification (some "ring-doorbell-1") vc fp v).confidence = "medium" ∨
       (enhanced_classification (some "ring-doorbell-1") vc fp v).confidence = "high") := by
  unfold enhanced_classification
  rw [m1_ring]
  have h4 : (m4 (some "ring-doorbell-1") v (m3 vc (m2 fp initEnh))).device_type =
        some "Smart Camera" ∧
      ((m4 (some "ring-doorbell-1") v (m3 vc (m2 fp initEnh))).confidence = "medium" ∨
       (m4 (some "ring-doorbell-1") v (m3 vc (m2 fp initEnh))).confidence = "high") := by
    rcases s3_ring_shape vc fp with h | ⟨h1, h2, h3, h4⟩
    · rw [h, m4_ring_init]
      exact ⟨rfl, Or.inl rfl⟩
    · rw [m4_ring_high v _ h1 h2 h3]
      exact ⟨rfl, Or.inr h4⟩
  set s4 := m4 (some "ring-doorbell-1") v (m3 vc (m2 fp initEnh)) with hs4
  have h5 : (m5 v s4).device_type = some "Smart Camera" ∧
      ((m5 v s4).confidence = "medium" ∨ (m5 v s4).confidence = "high") :=
    ⟨m5_pres_dt v s4 _ h4.1, conf_mh_step s4 _ (m5_conf_mem v s4) h4.2⟩
  set s5 := m5 v s4
  have h6 : (m6 (some "ring-doorbell-1") s5).device_type = some "Smart Camera" ∧
      ((m6 (some "ring-doorbell-1") s5).confidence = "medium" ∨
       (m6 (some "ring-doorbell-1") s5).confidence = "high") :=
    ⟨m6_pres_dt _ s5 _ h5.1, conf_mh_step s5 _ (m6_conf_mem _ s5) h5.2⟩
  set s6 := m6 (some "ring-doorbell-1") s5
  have h7 : (m7 v s6).device_type = some "Smart Camera" ∧
      ((m7 v s6).confidence = "medium" ∨ (m7 v s6).confidence = "high") :=
    ⟨m7_pres_dt v s6 _ h6.1, conf_mh_step s6 _ (m7_conf_mem v s6) h6.2⟩
  set s7 := m7 v s6
  have h8 : (m8 vc v s7).device_type = some "Smart Camera" ∧
      ((m8 vc v s7).confidence = "medium" ∨ (m8 vc v s7).confidence = "high") :=
    ⟨m8_pres_dt vc v s7 _ h7.1, conf_mh_step s7 _ (m8_conf_mem vc v s7) h7.2⟩
  set s8 := m8 vc v s7
  have h9 : (m9 v vc s8).device_type = some "Smart Camera" ∧
      ((m9 v vc s8).confidence = "medium" ∨ (m9 v vc s8).confidence = "high") :=
    ⟨m9_pres_dt v vc s8 _ h8.1, conf_mh_step s8 _ (m9_conf_mem v vc s8) h8.2⟩
  set s9 := m9 v vc s8
  rw [m10_ring_noop v s9 h9.1]
  exact h9
theorem try_pref_ring (best : DHCPLogEntry) (v : Option String)
    (hh : best.hostname = some "ring-doorbell-1") :
    ∃ er, try_enhanced_classification_preferred best v = some er ∧
      er.device_type = some "Smart Camera" := by
  unfold try_enhanced_classification_preferred
  rw [hh]
  obtain ⟨hdt, hconf⟩ := enh_ring best.vendor_class best.dhcp_fingerprint v
  refine ⟨enhanced_classification (some "ring-doorbell-1") best.vendor_class
    best.dhcp_fingerprint v, ?_, hdt⟩
  have hcond : ((enhanced_classification (some "ring-doorbell-1") best.vendor_class
        best.dhcp_fingerprint v).confidence = "high" ∨
      (enhanced_classification (some "ring-doorbell-1") best.vendor_class
        best.dhcp_fingerprint v).confidence = "very_high" ∨
      (enhanced_classification (some "ring-doorbell-1") best.vendor_class
        best.dhcp_fingerprint v).confidence = "medium") := by
    rcases hconf with h | h
    · exact Or.inr (Or.inr h)
    · exact Or.inl h
  rw [if_pos]
  simp only [Bool.and_eq_true, Bool.or_eq_true, decide_eq_true_eq]
  refine ⟨?_, ?_⟩
  · tauto
  · rw [hdt]
    decide

theorem classify_step2_ok (r1 : DeviceClassificationResult) (fr : DeviceClassification)
    (he : truthy fr.error_message = false) (hd : truthy fr.device_type = true) :
    (classify_step2 r1 (.returned (some fr))).2.1 = some fr ∧
      (classify_step2 r1 (.returned (some fr))).2.2 = true := by
  unfold classify_step2
  simp [he, hd]

theorem classify_step25_ring (best : DHCPLogEntry) (r2 : DeviceClassificationResult)
    (fr : DeviceClassification) (hh : best.hostname = some "ring-doorbell-1") :
    (classify_step25 best r2 fr).device_type = some "Smart Camera" := by
  have hroute : should_route_to_enhanced_classifier fr best.hostname best.vendor_class
      (sOf r2.vendor) = true := by
    apply (should_route_iff fr best.hostname best.vendor_class (sOf r2.vendor)).mpr
    refine Or.inr (Or.inr (Or.inr (Or.inl ?_)))
    rw [hh]
    exact critical_ring
  obtain ⟨er, hter, herdt⟩ := try_pref_ring best r2.vendor hh
  simp only [classify_step25, hroute, hter]
  have htr : truthy er.device_type = true := by rw [herdt]; decide
  simp [htr, herdt, show truthy (some "Smart Camera") = true from by decide]

theorem classify_final_dt (r : DeviceClassificationResult) :
    (classify_final r).device_type = r.device_type := rfl
/-! ### Claim theorems -/

/-- C1: for every observation whose hostname is the critical-pattern
hostname "ring-doorbell-1" (any vendor class, fingerprint, vendor lookup
result) and for which the oracle returned a usable (truthy) device_type —
any type, any confidence score — the final device_type of the aggregated
result is "Smart Camera": the routing decision fires on the critical
hostname pattern and the fallback classifier's IoT-signature match is
accepted. -/
theorem C1_critical_ring_hostname_overrides_oracle
    (mac : String) (ip vc fp mt : Option String)
    (vendor_info : Option VendorLookupResult) (fr : DeviceClassification)
    (he : truthy fr.error_message = false) (hd : truthy fr.device_type = true) :
    (classify_device mac
        { mac_address := mac, ip_address := ip, hostname := some "ring-doorbell-1",
          vendor_class := vc, dhcp_fingerprint := fp, message_type := mt }
        vendor_info (.returned (some fr))).device_type = some "Smart Camera" := by
  have h2 := classify_step2_ok (classify_step1 mac
    { mac_address := mac, ip_address := ip, hostname := some "ring-doorbell-1",
      vendor_class := vc, dhcp_fingerprint := fp, message_type := mt } vendor_info) fr he hd
  unfold classify_device
  rw [classify_final_dt]
  simp only [h2.1, h2.2, Bool.not_true]
  exact classify_step25_ring _ _ _ rfl

/-- The oracle candidate of the C1 witness: a confident (score 90)
"Computer" verdict. -/
def frComputer90 : DeviceClassification :=
  { device_name := some "Computer", device_type := some "Computer",
    operating_system := some "Windows", device_hierarchy := [],
    confidence_score := 90, error_message := none }

def entryRingDoorbell : DHCPLogEntry :=
  { mac_address := "aa:bb:cc:dd:ee:ff", ip_address := none,
    hostname := some "ring-doorbell-1", vendor_class := none,
    dhcp_fingerprint := none, message_type := none }

def vendorAmazon : VendorLookupResult :=
  { vendor := some "Amazon Technologies", confidence := "high" }

/-- C1 witness: the oracle confidently (score 90) says "Computer", the
hostname is "ring-doorbell-1", and the final device_type is still
"Smart Camera". -/
theorem C1_critical_ring_hostname_overrides_oracle_witness :
    (classify_device "aa:bb:cc:dd:ee:ff" entryRingDoorbell (some vendorAmazon)
        (.returned (some frComputer90))).device_type = some "Smart Camera" :=
  C1_critical_ring_hostname_overrides_oracle "aa:bb:cc:dd:ee:ff" none none none none
    (some vendorAmazon) frComputer90 (by decide) (by decide)

/-- C2: the routing-to-fallback decision returns true exactly when one of
the six §4.4 triggers holds (the ordered if-chain of the source returns
true in every branch but the final one, so the first true trigger wins and
the result is their disjunction); in particular it is true whenever the
confidence score is ≤ 40, and whenever the joined device hierarchy or the
device name contains "hardware manufacturer" case-insensitively regardless
of the score — concretely for hierarchy ["Hardware Manufacturer"] at
confidence 85. -/
theorem C2_routing_trigger_chain :
    (∀ (fb : DeviceClassification) (hostname vendor_class : Option String) (vendor : String),
      should_route_to_enhanced_classifier fb hostname vendor_class vendor = true ↔
        (fb.confidence_score ≤ 40 ∨
         strContains (pyLower (String.intercalate " " fb.device_hierarchy))
           "hardware manufacturer" = true ∨
         strContains (pyLower (sOf fb.device_name)) "hardware manufacturer" = true ∨
         has_critical_hostname_pattern (sOf hostname) = true ∨
         (fb.confidence_score ≤ 50 ∧ has_strong_hostname_pattern (sOf hostname) = true) ∨
         (anyIn routing_component_manufacturers (pyLower vendor) = true ∧
           fb.confidence_score ≤ 60) ∨
         (anyIn ["udhcp", "busybox", "dhcpcd"] (pyLower (sOf vendor_class)) = true ∧
           fb.confidence_score ≤ 55))) ∧
    should_route_to_enhanced_classifier
      { device_name := some "Generic Computer", device_type := some "Computer",
        operating_system := none, device_hierarchy := ["Hardware Manufacturer"],
        confidence_score := 85, error_message := none }
      (some "host-1") (some "MSFT 5.0") "Apple" = true :=
  ⟨should_route_iff, by decide⟩

/-- The oracle candidate of the C3 counterexample: "Streaming Device" at
confidence 50. -/
def frStreaming50 : DeviceClassification :=
  { device_name := none, device_type := some "Streaming Device",
    operating_system := none, device_hierarchy := [], confidence_score := 50,
    error_message := none }

/-- C3 counterexample: the code treats entertainment↔iot as an overlapping
(non-conflicting) category pair — contradicting the claim's "exactly the
pairs smart-home↔iot and entertainment↔smart-home" — and this is
behaviorally visible: with oracle device_type "Streaming Device"
(entertainment) at confidence 50 and hostname "ring-doorbell-front"
matching the "Smart Camera" (iot) table entry, the claim's condition (b)
holds under its two-pair overlap list, yet the source applies no
override. -/
theorem C3_entertainment_iot_overlap_cex :
    categories_overlap "entertainment" "iot" = true ∧
    spec_categories_overlap "entertainment" "iot" = false ∧
    strContains (pyLower (sOf (some "ring-doorbell-front"))) "ring-doorbell" = true ∧
    spec_override_condition 50 (pyLower (sOf (some "ring-doorbell-front")))
      (some "Streaming Device") "Smart Camera" = true ∧
    apply_selective_override (some frStreaming50)
      (some "ring-doorbell-front") (some "Samsung") (some "Streaming Device") = none :=
  ⟨by decide, by decide, by decide, by decide, by decide⟩

/-- C3 amended: in the selective-override pass a hostname-table device type
replaces the oracle's only if it differs from the oracle's device_type and
(a) oracle confidence ≤ 40, or (b) confidence ≤ 60 and the two types lie in
different non-overlapping semantic categories — where smart-home↔iot,
entertainment↔smart-home AND entertainment↔iot are treated as overlapping —
or (c) confidence > 60 and the hostname matches the critical override
list. -/
theorem C3_amended_override_conditions (fr : DeviceClassification)
    (hostname vendor current_dt : Option String) (r : OverrideResult)
    (h : apply_selective_override (some fr) hostname vendor current_dt = some r) :
    some r.device_type ≠ current_dt ∧
      (fr.confidence_score ≤ 40 ∨
       (fr.confidence_score ≤ 60 ∧ is_clear_device_conflict current_dt r.device_type = true) ∨
       (60 < fr.confidence_score ∧
         is_critical_override_case (pyLower (sOf hostname)) = true)) := by
  simp only [apply_selective_override] at h
  split at h
  · exact absurd h (by simp)
  · exact overrideScan_sound _ _ _ _ _ h

/-- The oracle candidate of the C3 amended witness: "Computer" at
confidence 30. -/
def frComputer30 : DeviceClassification :=
  { device_name := none, device_type := some "Computer", operating_system := none,
    device_hierarchy := [], confidence_score := 30, error_message := none }

def ovSmartCamera30 : OverrideResult :=
  { device_type := "Smart Camera", operating_system := "Linux",
    method := "fingerbank_override_low_confidence_30" }

/-- C3 amended witness: at oracle confidence 30 and hostname
"ring-doorbell-1", the override to "Smart Camera" is applied and the
amended conditions hold. -/
theorem C3_amended_override_conditions_witness :
    some (ovSmartCamera30.device_type) ≠ some "Computer" ∧
      (frComputer30.confidence_score ≤ 40 ∨
       (frComputer30.confidence_score ≤ 60 ∧
         is_clear_device_conflict (some "Computer") ovSmartCamera30.device_type = true) ∨
       (60 < frComputer30.confidence_score ∧
         is_critical_override_case (pyLower (sOf (some "ring-doorbell-1"))) = true)) :=
  C3_amended_override_conditions frComputer30 (some "ring-doorbell-1") (some "Samsung")
    (some "Computer") ovSmartCamera30 (by decide)

/-- C4: in the fallback chain, once device_type or operating_system is set,
no lower-priority step (methods 2-9) replaces it with a different value:
each of those steps only fills fields that are still unset.  The explicit
override paths — method 10 (hostname-vendor conflict resolution) and the
Resolution Engine's override paths in the aggregator — are exactly the ones
excluded here. -/
theorem C4_no_silent_overwrite (hostname vendor_class dhcp_fingerprint vendor : Option String) :
    preservesLocked (m2 dhcp_fingerprint) ∧ preservesLocked (m3 vendor_class) ∧
    preservesLocked (m4 hostname vendor) ∧ preservesLocked (m5 vendor) ∧
    preservesLocked (m6 hostname) ∧ preservesLocked (m7 vendor) ∧
    preservesLocked (m8 vendor_class vendor) ∧ preservesLocked (m9 vendor vendor_class) := by
  refine ⟨fun s => ⟨?_, ?_⟩, fun s => ⟨?_, ?_⟩, fun s => ⟨?_, ?_⟩, fun s => ⟨?_, ?_⟩,
    fun s => ⟨?_, ?_⟩, fun s => ⟨?_, ?_⟩, fun s => ⟨?_, ?_⟩, fun s => ⟨?_, ?_⟩⟩
  · intro d hd
    rw [m2_pres_dt]
    exact hd
  · exact m2_pres_os dhcp_fingerprint s
  · intro d hd
    rw [m3_pres_dt]
    exact hd
  · exact m3_pres_os vendor_class s
  · exact m4_pres_dt hostname vendor s
  · exact m4_pres_os hostname vendor s
  · exact m5_pres_dt vendor s
  · exact m5_pres_os vendor s
  · exact m6_pres_dt hostname s
  · exact m6_pres_os hostname s
  · exact m7_pres_dt vendor s
  · exact m7_pres_os vendor s
  · exact m8_pres_dt vendor_class vendor s
  · exact m8_pres_os vendor_class vendor s
  · exact m9_pres_dt vendor vendor_class s
  · exact m9_pres_os vendor vendor_class s

/-- C5: the oracle confidence score is bucketed exactly as: < 30 very_low,
30-50 moderate, 51-75 high, > 75 very_high; in particular 50 is moderate,
51 is high, 29 is very_low and 76 is very_high. -/
theorem C5_confidence_bucketing :
    (∀ s : Nat, s < 30 → confidenceLevelOf s = "very_low") ∧
    (∀ s : Nat, 30 ≤ s → s ≤ 50 → confidenceLevelOf s = "moderate") ∧
    (∀ s : Nat, 51 ≤ s → s ≤ 75 → confidenceLevelOf s = "high") ∧
    (∀ s : Nat, 75 < s → confidenceLevelOf s = "very_high") ∧
    confidenceLevelOf 50 = "moderate" ∧ confidenceLevelOf 51 = "high" ∧
    confidenceLevelOf 29 = "very_low" ∧ confidenceLevelOf 76 = "very_high" := by
  refine ⟨?_, ?_, ?_, ?_, by decide, by decide, by decide, by decide⟩ <;>
    (intro s
     unfold confidenceLevelOf
     intros
     repeat' split
     all_goals first | rfl | omega)

/-- C6: a per-device classification failure does not abort the batch: the
loop of `analyze_dhcp_log` emits, in place, a result with
overall_confidence "error" and a descriptive classification string, and
the output still has exactly one entry per distinct MAC of the input
(the grouped keys are exactly the distinct MACs, without duplicates). -/
theorem C6_per_device_error_isolation
    (classify : String → List DHCPLogEntry → Except String DeviceClassificationResult)
    (entries : List DHCPLogEntry) :
    (analyze_loop classify (group_entries_by_device entries)).length =
        (group_entries_by_device entries).length ∧
      ((group_entries_by_device entries).map Prod.fst).Nodup ∧
      (∀ m, m ∈ (group_entries_by_device entries).map Prod.fst ↔
        ∃ e ∈ entries, e.mac_address = m) ∧
      (∀ g ∈ group_entries_by_device entries, ∀ msg, classify g.1 g.2 = .error msg →
        ({ mac_address := g.1,
           classification := some ("Classification failed: " ++ msg),
           overall_confidence := "error" } : DeviceClassificationResult) ∈
          analyze_loop classify (group_entries_by_device entries)) := by
  refine ⟨by simp [analyze_loop], ?_, ?_, ?_⟩
  · exact foldl_groups_keys_nodup entries [] (by simp)
  · intro m
    have h := foldl_groups_keys_mem entries [] m
    simpa [group_entries_by_device] using h
  · intro g hg msg hmsg
    unfold analyze_loop
    apply List.mem_map.mpr
    refine ⟨g, hg, ?_⟩
    rw [hmsg]

/-- The three observations of the C7 scenario: hostname only (score 3),
vendor_class + dhcp_param_list (score 4), hostname + vendor_class + ACK
(score 6). -/
def obsHostnameOnly : DHCPLogEntry :=
  { mac_address := "m", ip_address := none, hostname := some "host-a",
    vendor_class := none, dhcp_fingerprint := none, message_type := some "REQUEST" }

def obsVendorFp : DHCPLogEntry :=
  { mac_address := "m", ip_address := none, hostname := none,
    vendor_class := some "MSFT 5.0", dhcp_fingerprint := some "1,3,6",
    message_type := some "DISCOVER" }

def obsHostnameVcAck : DHCPLogEntry :=
  { mac_address := "m", ip_address := none, hostname := some "host-c",
    vendor_class := some "android-dhcp-11", dhcp_fingerprint := none,
    message_type := some "ACK" }

/-- C7: for every non-empty observation list the selected best entry is a
member attaining the maximal additive score (+3 hostname, +2 vendor_class,
+2 dhcp_param_list, +1 ACK), and it is the EARLIEST such member: the list
splits as l1 ++ best :: l2 with every entry of l1 scoring strictly less.
In particular, of the three scenario observations (scores 3, 4, 6) the
third is selected. -/
theorem C7_best_entry_selection :
    (∀ (e : DHCPLogEntry) (l : List DHCPLogEntry),
      ∃ b l1 l2, get_best_entry (e :: l) = some b ∧ e :: l = l1 ++ b :: l2 ∧
        (∀ x ∈ l1, entryScore x < entryScore b) ∧
        (∀ x ∈ e :: l, entryScore x ≤ entryScore b)) ∧
    entryScore obsHostnameOnly = 3 ∧ entryScore obsVendorFp = 4 ∧
    entryScore obsHostnameVcAck = 6 ∧
    get_best_entry [obsHostnameOnly, obsVendorFp, obsHostnameVcAck] =
      some obsHostnameVcAck := by
  refine ⟨?_, by decide, by decide, by decide, by decide⟩
  intro e l
  obtain ⟨l1, l2, heq, hlt, hle⟩ := bestPick_fold_spec l e
  exact ⟨l.foldl bestPick e, l1, l2, rfl, heq, hlt, hle⟩

theorem m2_conf_mem (fp : Option String) (s : EnhResult) :
    (m2 fp s).confidence = s.confidence ∨ (m2 fp s).confidence = "medium" ∨
      (m2 fp s).confidence = "high" := by
  unfold m2
  repeat' split
  all_goals simp_all

theorem m3_conf_mono (vc : Option String) (s : EnhResult) :
    confRank s.confidence ≤ confRank ((m3 vc) s).confidence := by
  unfold m3
  repeat' split
  all_goals first
    | rfl
    | simp_all [confRank_high, confRank_medium, confRank_low, confRank_le_two]

theorem m3_conf_mem (vc : Option String) (s : EnhResult) :
    (m3 vc s).confidence = s.confidence ∨ (m3 vc s).confidence = "medium" ∨
      (m3 vc s).confidence = "high" := by
  unfold m3
  repeat' split
  all_goals simp_all

theorem conf_lmh_step (s s' : EnhResult)
    (hmem : s'.confidence = s.confidence ∨ s'.confidence = "medium" ∨
      s'.confidence = "high")
    (h : s.confidence = "low" ∨ s.confidence = "medium" ∨ s.confidence = "high") :
    s'.confidence = "low" ∨ s'.confidence = "medium" ∨ s'.confidence = "high" := by
  rcases hmem with h1 | h1 | h1
  · rw [h1]; exact h
  · exact Or.inr (Or.inl h1)
  · exact Or.inr (Or.inr h1)

/-- The C8 counterexample results: an "Unknown"-vendor device classified by
the enhanced fallback, and a fingerbank-classified device whose recorded
oracle score is 0. -/
def rUnknownVendor : DeviceClassificationResult :=
  { mac_address := "aa", vendor := some "Unknown",
    classification_method := "enhanced_fallback" }

def rFingerbankZero : DeviceClassificationResult :=
  { mac_address := "bb", vendor := some "Apple", hostname := some "host-b",
    vendor_class := some "MSFT 5.0", classification_method := "fingerbank",
    fingerbank_confidence := some 0 }

/-- C8 counterexample: the source grants the +20 vendor bonus for the
"Unknown" fallback vendor too (claim says it is granted exactly when the
vendor is known), and grants no fingerbank contribution at a recorded
score of 0 (claim's scale says "else +20"): on the two concrete results
the claim's scale and the source disagree. -/
theorem C8_vendor_bonus_cex :
    (calculate_overall_confidence rUnknownVendor = "low" ∧
      spec_tier (spec_overall_points rUnknownVendor) = "unknown") ∧
    (calculate_overall_confidence rFingerbankZero = "low" ∧
      spec_tier (spec_overall_points rFingerbankZero) = "medium") :=
  ⟨⟨by decide, by decide⟩, ⟨by decide, by decide⟩⟩

/-- C8 amended: the final overall_confidence equals the fixed point scale
with the vendor bonus granted whenever a non-empty vendor string is present
(including "Unknown"), the fingerbank tier contribution applying only when
a nonzero oracle confidence is recorded, and the tier thresholds
≥ 80 high, ≥ 50 medium, ≥ 30 low, else unknown. -/
theorem C8_amended_point_scale (r : DeviceClassificationResult) :
    calculate_overall_confidence r = spec_tier (amended_overall_points r) ∧
      (80 ≤ amended_overall_points r → calculate_overall_confidence r = "high") ∧
      (50 ≤ amended_overall_points r → amended_overall_points r < 80 →
        calculate_overall_confidence r = "medium") ∧
      (30 ≤ amended_overall_points r → amended_overall_points r < 50 →
        calculate_overall_confidence r = "low") ∧
      (amended_overall_points r < 30 → calculate_overall_confidence r = "unknown") := by
  have hmain : calculate_overall_confidence r = spec_tier (amended_overall_points r) := rfl
  refine ⟨hmain, ?_, ?_, ?_, ?_⟩
  · intro h1
    rw [hmain]
    unfold spec_tier
    rw [if_pos h1]
  · intro h1 h2
    rw [hmain]
    unfold spec_tier
    rw [if_neg (by omega), if_pos h1]
  · intro h1 h2
    rw [hmain]
    unfold spec_tier
    rw [if_neg (by omega), if_neg (by omega), if_pos h1]
  · intro h1
    rw [hmain]
    unfold spec_tier
    rw [if_neg (by omega), if_neg (by omega), if_neg (by omega)]

/-- C9: within a single call of the fallback chain, confidence is
monotonically non-decreasing in the order low < medium < high: none of the
ten methods ever lowers the confidence of the state it receives. -/
theorem C9_confidence_monotone (hostname vendor_class dhcp_fingerprint vendor : Option String)
    (s : EnhResult) :
    confRank s.confidence ≤ confRank (m1 hostname s).confidence ∧
    confRank s.confidence ≤ confRank (m2 dhcp_fingerprint s).confidence ∧
    confRank s.confidence ≤ confRank (m3 vendor_class s).confidence ∧
    confRank s.confidence ≤ confRank (m4 hostname vendor s).confidence ∧
    confRank s.confidence ≤ confRank (m5 vendor s).confidence ∧
    confRank s.confidence ≤ confRank (m6 hostname s).confidence ∧
    confRank s.confidence ≤ confRank (m7 vendor s).confidence ∧
    confRank s.confidence ≤ confRank (m8 vendor_class vendor s).confidence ∧
    confRank s.confidence ≤ confRank (m9 vendor vendor_class s).confidence ∧
    confRank s.confidence ≤ confRank (m10 hostname vendor s).confidence :=
  ⟨m1_conf_mono hostname s, m2_conf_mono dhcp_fingerprint s, m3_conf_mono vendor_class s,
   m4_conf_mono hostname vendor s, m5_conf_mono vendor s, m6_conf_mono hostname s,
   m7_conf_mono vendor s, m8_conf_mono vendor_class vendor s,
   m9_conf_mono vendor vendor_class s, m10_conf_mono hostname vendor s⟩

/-- C10: for every combination of (possibly missing) hostname, vendor
class, fingerprint and vendor, `enhanced_classification` is total (a Lean
function) and returns a record with exactly the five result fields, whose
confidence is one of "low", "medium", "high" and whose hostname_override
is a boolean. -/
theorem C10_total_wellformed (hostname vendor_class dhcp_fingerprint vendor : Option String) :
    ((enhanced_classification hostname vendor_class dhcp_fingerprint vendor).confidence =
        "low" ∨
      (enhanced_classification hostname vendor_class dhcp_fingerprint vendor).confidence =
        "medium" ∨
      (enhanced_classification hostname vendor_class dhcp_fingerprint vendor).confidence =
        "high") ∧
    ((enhanced_classification hostname vendor_class dhcp_fingerprint vendor).hostname_override =
        true ∨
      (enhanced_classification hostname vendor_class dhcp_fingerprint
        vendor).hostname_override = false) := by
  constructor
  · unfold enhanced_classification
    have h0 : initEnh.confidence = "low" ∨ initEnh.confidence = "medium" ∨
        initEnh.confidence = "high" := Or.inl rfl
    exact conf_lmh_step _ _ (m10_conf_mem _ _ _)
      (conf_lmh_step _ _ (m9_conf_mem _ _ _)
        (conf_lmh_step _ _ (m8_conf_mem _ _ _)
          (conf_lmh_step _ _ (m7_conf_mem _ _)
            (conf_lmh_step _ _ (m6_conf_mem _ _)
              (conf_lmh_step _ _ (m5_conf_mem _ _)
                (conf_lmh_step _ _ (m4_conf_mem _ _ _)
                  (conf_lmh_step _ _ (m3_conf_mem _ _)
                    (conf_lmh_step _ _ (m2_conf_mem _ _)
                      (conf_lmh_step _ _ (m1_conf_mem _ _) h0)))))))))
  · rcases Bool.eq_false_or_eq_true
      ((enhanced_classification hostname vendor_class dhcp_fingerprint
        vendor).hostname_override) with h | h
    · exact Or.inl h
    · exact Or.inr h
